import Mathlib

/-! Shape inference and validation of `minerva/narray/convolution.cpp`.

A shallow embedding of the operator layer `Convolution::*`.  Every operator is a
function of its arguments and of the state of the external array engine; it
returns either a result handle or the fatal condition that stopped the call,
together with the engine state after the call.

Conventions of the embedding:

* C++ `int` is read in two ways.  The operators `Convolution.ConvForward`, ...,
  `Convolution.LrnBackward` compute over the integers (`Int`); this is what the
  source computes whenever no `int` operation overflows.  The operators
  `Convolution.ConvForward32` and `Convolution.PoolingForward32` compute the
  shapes on the 32-bit two's-complement `int` (`wrapInt`), which is what the
  source computes on the usual targets also when an operation overflows (the
  C++ standard leaves signed overflow undefined).  The two readings agree when
  the exact values fit `int` (`ConvForward32_eq_exact`,
  `PoolingForward32_eq_exact`).
* `a / b` on `int` is truncating division, `Int.tdiv`.  A zero divisor is
  undefined in the source; the embedding reports it as `Fatal.divisionByZero`
  before any later effect of the call.
* `CHECK_EQ(a, b) << msg` terminates the call when `a ≠ b`; the embedding
  returns `Fatal.check msg` and leaves the engine state as it was.
-/

namespace minerva

/-! ## Data model -/

/-- A shape: the ordered sequence of dimensions of a tensor. -/
abbrev Scale := List Int

/-- The number of dimensions of a shape, `Scale::NumDims`. -/
def Scale.NumDims (s : Scale) : Int := s.length

/-- A tensor handle: the engine node it refers to and its shape.  The operator
layer never reads tensor contents. -/
structure NArray where
  id : Nat
  size : Scale
deriving DecidableEq, Repr

/-- The shape of a handle, `NArray::Size()`. -/
def NArray.Size (a : NArray) : Scale := a.size

/-- Modelled from the spec: the class `ImageBatch` (narray/image_batch.h is not
part of the sources).  A tensor handle whose shape has the four dimensions
width, height, number of feature maps, number of images, in that order. -/
structure ImageBatch where
  id : Nat
  width : Int
  height : Int
  num_feature_maps : Int
  num_images : Int
deriving DecidableEq, Repr

namespace ImageBatch

def GetWidth (b : ImageBatch) : Int := b.width
def GetHeight (b : ImageBatch) : Int := b.height
def GetNumFeatureMaps (b : ImageBatch) : Int := b.num_feature_maps
def GetNumImages (b : ImageBatch) : Int := b.num_images

/-- The shape of an image batch in the fixed order of the data model. -/
def Size (b : ImageBatch) : Scale :=
  [b.width, b.height, b.num_feature_maps, b.num_images]

/-- The handle an image batch is passed to the engine as. -/
def toNArray (b : ImageBatch) : NArray := { id := b.id, size := b.Size }

/-- Viewing a handle as an image batch; only four-dimensional handles are
image batches. -/
def ofNArray (a : NArray) : Option ImageBatch :=
  match a.size with
  | [w, h, c, n] =>
    some { id := a.id, width := w, height := h, num_feature_maps := c, num_images := n }
  | _ => none

end ImageBatch

/-- Modelled from the spec: the class `Filter` (narray/image_batch.h is not part
of the sources).  A tensor handle whose shape has the four dimensions width,
height, number of input channels, number of output channels, in that order. -/
structure Filter where
  id : Nat
  width : Int
  height : Int
  num_inputs : Int
  num_outputs : Int
deriving DecidableEq, Repr

namespace Filter

def GetWidth (f : Filter) : Int := f.width
def GetHeight (f : Filter) : Int := f.height
def GetNumInputs (f : Filter) : Int := f.num_inputs
def GetNumOutputs (f : Filter) : Int := f.num_outputs

/-- The shape of a filter in the fixed order of the data model. -/
def Size (f : Filter) : Scale :=
  [f.width, f.height, f.num_inputs, f.num_outputs]

/-- The handle a filter is passed to the engine as. -/
def toNArray (f : Filter) : NArray := { id := f.id, size := f.Size }

/-- Viewing a handle as a filter; only four-dimensional handles are filters. -/
def ofNArray (a : NArray) : Option Filter :=
  match a.size with
  | [w, h, i, o] =>
    some { id := a.id, width := w, height := h, num_inputs := i, num_outputs := o }
  | _ => none

end Filter

/-- Modelled from the spec: `ConvInfo` (narray/convolution_info.h is not part of
the sources).  The three algorithm selectors are opaque enumerations, carried
as their numeric codes. -/
structure ConvInfo where
  pad_height : Int
  pad_width : Int
  stride_vertical : Int
  stride_horizontal : Int
  forward_algorithm : Nat
  backward_data_algorithm : Nat
  backward_filter_algorithm : Nat
deriving DecidableEq, Repr

/-- Modelled from the spec: `PoolingInfo` (its header is not part of the
sources).  `height` and `width` are the pooling window. -/
structure PoolingInfo where
  algorithm : Nat
  height : Int
  width : Int
  stride_vertical : Int
  stride_horizontal : Int
  pad_height : Int
  pad_width : Int
deriving DecidableEq, Repr

/-- Modelled from the spec: a profiling record, an algorithm identifier paired
with its measured cost. -/
structure AlgoProfResult where
  algo : Nat
  cost : Nat
deriving DecidableEq, Repr

/-! ## Operator descriptors

Modelled from the spec: op/physical_op.h is not part of the sources.  Each
closure holds the fields the operator layer assigns. -/

/-- The closure of the three convolution operators. -/
structure ConvClosure where
  pad_height : Int
  pad_width : Int
  stride_vertical : Int
  stride_horizontal : Int
  algo : Nat
deriving DecidableEq, Repr

/-- The closure of the three profiling operators.  `results` is the reference
to the shared results container. -/
structure ConvFindAlgorithmClosure where
  results : Nat
  pad_height : Int
  pad_width : Int
  stride_vertical : Int
  stride_horizontal : Int
deriving DecidableEq, Repr

/-- The closure of the pooling operators, in the order of the aggregate
initialisation of the source. -/
structure PoolingClosure where
  algorithm : Nat
  height : Int
  width : Int
  stride_vertical : Int
  stride_horizontal : Int
  pad_height : Int
  pad_width : Int
deriving DecidableEq, Repr

/-- The closure of the LRN operators.  The three `float` parameters are only
stored, never inspected; they are carried as their bit patterns. -/
structure LrnClosure where
  local_size : Int
  alpha : Nat
  beta : Nat
  k : Nat
deriving DecidableEq, Repr

/-- The operator descriptors handed to the engine, one variant per operator. -/
inductive PhysicalOp where
  | ConvForwardOp (closure : ConvClosure)
  | ConvBackwardDataOp (closure : ConvClosure)
  | ConvBackwardFilterOp (closure : ConvClosure)
  | ConvBackwardBiasOp
  | ConvForwardFindAlgorithmOp (closure : ConvFindAlgorithmClosure)
  | ConvBackwardFilterFindAlgorithmOp (closure : ConvFindAlgorithmClosure)
  | ConvBackwardDataFindAlgorithmOp (closure : ConvFindAlgorithmClosure)
  | SoftmaxForwardOp (algorithm : Nat)
  | SoftmaxBackwardOp (algorithm : Nat)
  | ActivationForwardOp (algorithm : Nat)
  | ActivationBackwardOp (algorithm : Nat)
  | PoolingForwardOp (closure : PoolingClosure)
  | PoolingBackwardOp (closure : PoolingClosure)
  | LrnForwardOp (closure : LrnClosure)
  | LrnBackwardOp (closure : LrnClosure)
deriving DecidableEq, Repr

/-- The results container a profiling descriptor refers to, if any. -/
def PhysicalOp.resultsRef : PhysicalOp → Option Nat
  | .ConvForwardFindAlgorithmOp c => some c.results
  | .ConvBackwardFilterFindAlgorithmOp c => some c.results
  | .ConvBackwardDataFindAlgorithmOp c => some c.results
  | _ => none

/-! ## Engine interface

Modelled from the spec: the engine is an external collaborator.  Its state is
the log of the interface operations invoked so far, and the shared results
containers created for profiling descriptors. -/

/-- One invocation of the engine interface. -/
inductive EngineCall where
  | zeros (shape : Scale)
  | submitNode (inputs : List NArray) (outputShape : Scale) (descriptor : PhysicalOp)
  | wait (handle : NArray)
deriving DecidableEq, Repr

/-- The state of the engine and of the shared results containers. -/
structure Engine where
  log : List EngineCall
  containers : List (List AlgoProfResult)
deriving DecidableEq, Repr

/-- How a call of the operator layer can stop without a result. -/
inductive Fatal where
  | check (message : String)
  | divisionByZero
deriving DecidableEq, Repr

/-- The outcome of a call: a result or a fatal condition, and the engine state
after the call. -/
abbrev Outcome (α : Type) := Except Fatal α × Engine

/-- Whether a call produced a result handle. -/
def Outcome.accepted {α : Type} (o : Outcome α) : Bool :=
  match o.1 with
  | .ok _ => true
  | .error _ => false

/-- The handle under which the next engine node is created. -/
def Engine.fresh (eng : Engine) (size : Scale) : NArray :=
  { id := eng.log.length, size := size }

/-- Modelled from the spec: the engine operation `zeros(shape)`, `NArray::Zeros`
(narray/narray.h is not part of the sources).  It creates the handle of a
zero-filled tensor and returns at once. -/
def NArray.Zeros (size : Scale) (eng : Engine) : NArray × Engine :=
  (eng.fresh size, { eng with log := eng.log ++ [EngineCall.zeros size] })

/-- Modelled from the spec: the engine operation `submitNode`,
`NArray::ComputeOne` (narray/narray.h is not part of the sources).  It registers
the node and returns at once with the handle of its result. -/
def NArray.ComputeOne (params : List NArray) (size : Scale) (op : PhysicalOp)
    (eng : Engine) : Outcome NArray :=
  (.ok (eng.fresh size),
    { eng with log := eng.log ++ [EngineCall.submitNode params size op] })

/-- Creating a new, empty shared results container, `std::make_shared`. -/
def make_shared (eng : Engine) : Nat × Engine :=
  (eng.containers.length, { eng with containers := eng.containers ++ [[]] })

/-- Modelled from the spec: the engine operation `wait(handle)`, `NArray::Wait`
(narray/narray.h is not part of the sources).  When the node of the handle is a
profiling node, the engine has added the records `records` it measured, in its
order, to the container of that node's descriptor by the time the wait
returns. -/
def NArray.Wait (records : List AlgoProfResult) (handle : NArray) (eng : Engine) : Engine :=
  let written :=
    match eng.log.get? handle.id with
    | some (EngineCall.submitNode _ _ op) =>
      match op.resultsRef with
      | some r => eng.containers.set r (eng.containers.getD r [] ++ records)
      | none => eng.containers
    | _ => eng.containers
  { log := eng.log ++ [EngineCall.wait handle], containers := written }

/-- The element of a shape at an index, `Scale::operator[]`.  The operator layer
only reads index `0` of a shape it has checked to have one dimension. -/
def Scale.index (s : Scale) (i : Nat) : Int := s.getD i 0

/-- The outcome of a failed `CHECK_EQ(..) << message`: the call stops and the
engine is left as it was. -/
def checkFailed {α : Type} (message : String) (eng : Engine) : Outcome α :=
  (.error (Fatal.check message), eng)

/-- The outcome of an integer division whose divisor is zero. -/
def divisionFailed {α : Type} (eng : Engine) : Outcome α :=
  (.error Fatal.divisionByZero, eng)

/-! ## The operators of `Convolution` -/

namespace Convolution

/-- Lines 6-23, the arithmetic of `new_size` over the integers. -/
def ConvForward (src : ImageBatch) (filter : Filter) (bias : NArray) (info : ConvInfo)
    (eng : Engine) : Outcome NArray :=
  if src.GetNumFeatureMaps ≠ filter.GetNumInputs then
    checkFailed "#input channels mismatch" eng
  else if bias.Size.NumDims ≠ 1 then
    checkFailed "bias dimension mismatch" eng
  else if bias.Size.index 0 ≠ filter.GetNumOutputs then
    checkFailed "bias size mismatch" eng
  else if info.stride_horizontal = 0 ∨ info.stride_vertical = 0 then
    divisionFailed eng
  else
    let new_size : Scale := [
      (src.GetWidth + 2 * info.pad_width - filter.GetWidth).tdiv info.stride_horizontal + 1,
      (src.GetHeight + 2 * info.pad_height - filter.GetHeight).tdiv info.stride_vertical + 1,
      filter.GetNumOutputs,
      src.GetNumImages]
    let op := PhysicalOp.ConvForwardOp {
      pad_height := info.pad_height
      pad_width := info.pad_width
      stride_vertical := info.stride_vertical
      stride_horizontal := info.stride_horizontal
      algo := info.forward_algorithm }
    NArray.ComputeOne [src.toNArray, filter.toNArray, bias] new_size op eng

/-- Lines 25-34. -/
def ConvBackwardData (diff bottom : ImageBatch) (filter : Filter) (info : ConvInfo)
    (eng : Engine) : Outcome NArray :=
  if diff.GetNumFeatureMaps ≠ filter.GetNumOutputs then
    checkFailed "#output channels mismatch" eng
  else
    let op := PhysicalOp.ConvBackwardDataOp {
      pad_height := info.pad_height
      pad_width := info.pad_width
      stride_vertical := info.stride_vertical
      stride_horizontal := info.stride_horizontal
      algo := info.backward_data_algorithm }
    NArray.ComputeOne [diff.toNArray, filter.toNArray] bottom.Size op eng

/-- Lines 36-45. -/
def ConvBackwardFilter (diff bottom : ImageBatch) (filter : Filter) (info : ConvInfo)
    (eng : Engine) : Outcome NArray :=
  if diff.GetNumImages ≠ bottom.GetNumImages then
    checkFailed "#images mismatch" eng
  else
    let op := PhysicalOp.ConvBackwardFilterOp {
      pad_height := info.pad_height
      pad_width := info.pad_width
      stride_vertical := info.stride_vertical
      stride_horizontal := info.stride_horizontal
      algo := info.backward_filter_algorithm }
    NArray.ComputeOne [diff.toNArray, bottom.toNArray] filter.Size op eng

/-- Lines 47-53. -/
def ConvBackwardBias (diff : ImageBatch) (eng : Engine) : Outcome NArray :=
  let new_size : Scale := [diff.GetNumFeatureMaps]
  NArray.ComputeOne [diff.toNArray] new_size PhysicalOp.ConvBackwardBiasOp eng

/-- Lines 120-124. -/
def SoftmaxForward (src : ImageBatch) (algorithm : Nat) (eng : Engine) : Outcome NArray :=
  NArray.ComputeOne [src.toNArray] src.Size (PhysicalOp.SoftmaxForwardOp algorithm) eng

/-- Lines 126-131. -/
def SoftmaxBackward (diff top : ImageBatch) (algorithm : Nat) (eng : Engine) :
    Outcome NArray :=
  if diff.Size ≠ top.Size then
    checkFailed "inputs sizes mismatch" eng
  else
    NArray.ComputeOne [diff.toNArray, top.toNArray] diff.Size
      (PhysicalOp.SoftmaxBackwardOp algorithm) eng

/-- Lines 133-137. -/
def ActivationForward (src : ImageBatch) (algorithm : Nat) (eng : Engine) : Outcome NArray :=
  NArray.ComputeOne [src.toNArray] src.Size (PhysicalOp.ActivationForwardOp algorithm) eng

/-- Lines 139-145. -/
def ActivationBackward (diff top bottom : ImageBatch) (algorithm : Nat) (eng : Engine) :
    Outcome NArray :=
  if diff.Size ≠ top.Size then
    checkFailed "inputs sizes mismatch" eng
  else if diff.Size ≠ bottom.Size then
    checkFailed "inputs sizes mismatch" eng
  else
    NArray.ComputeOne [diff.toNArray, top.toNArray, bottom.toNArray] diff.Size
      (PhysicalOp.ActivationBackwardOp algorithm) eng

/-- Lines 147-173, the arithmetic of the pooled dimensions over the integers. -/
def PoolingForward (src : ImageBatch) (info : PoolingInfo) (eng : Engine) : Outcome NArray :=
  if info.stride_vertical = 0 ∨ info.stride_horizontal = 0 then
    divisionFailed eng
  else
    let pooled_height :=
      (src.GetHeight + 2 * info.pad_height - info.height + info.stride_vertical - 1).tdiv
        info.stride_vertical + 1
    let pooled_width :=
      (src.GetWidth + 2 * info.pad_width - info.width + info.stride_horizontal - 1).tdiv
        info.stride_horizontal + 1
    let pooled_height :=
      if 0 ≤ (pooled_height - 1) * info.stride_vertical - src.GetHeight - info.pad_height then
        pooled_height - 1
      else pooled_height
    let pooled_width :=
      if 0 ≤ (pooled_width - 1) * info.stride_horizontal - src.GetWidth - info.pad_width then
        pooled_width - 1
      else pooled_width
    let new_size : Scale := [
      pooled_height,
      pooled_width,
      src.GetNumFeatureMaps,
      src.GetNumImages]
    let op := PhysicalOp.PoolingForwardOp {
      algorithm := info.algorithm
      height := info.height
      width := info.width
      stride_vertical := info.stride_vertical
      stride_horizontal := info.stride_horizontal
      pad_height := info.pad_height
      pad_width := info.pad_width }
    NArray.ComputeOne [src.toNArray] new_size op eng

/-- Lines 175-203, the arithmetic of the pooled dimensions over the integers. -/
def PoolingBackward (diff top bottom : ImageBatch) (info : PoolingInfo) (eng : Engine) :
    Outcome NArray :=
  if diff.Size ≠ top.Size then
    checkFailed "inputs sizes mismatch" eng
  else if diff.GetNumImages ≠ bottom.GetNumImages then
    checkFailed "#images mismatch" eng
  else if diff.GetNumFeatureMaps ≠ bottom.GetNumFeatureMaps then
    checkFailed "#channels mismatch" eng
  else if info.stride_vertical = 0 ∨ info.stride_horizontal = 0 then
    divisionFailed eng
  else
    let pooled_height :=
      (bottom.GetHeight + 2 * info.pad_height - info.height + info.stride_vertical - 1).tdiv
        info.stride_vertical + 1
    let pooled_width :=
      (bottom.GetWidth + 2 * info.pad_width - info.width + info.stride_horizontal - 1).tdiv
        info.stride_horizontal + 1
    let pooled_height :=
      if 0 ≤ (pooled_height - 1) * info.stride_vertical - bottom.GetHeight - info.pad_height then
        pooled_height - 1
      else pooled_height
    let pooled_width :=
      if 0 ≤ (pooled_width - 1) * info.stride_horizontal - bottom.GetWidth - info.pad_width then
        pooled_width - 1
      else pooled_width
    if top.GetHeight ≠ pooled_height then
      checkFailed "height mismatch" eng
    else if top.GetWidth ≠ pooled_width then
      checkFailed "width mismatch" eng
    else
      let op := PhysicalOp.PoolingBackwardOp {
        algorithm := info.algorithm
        height := info.height
        width := info.width
        stride_vertical := info.stride_vertical
        stride_horizontal := info.stride_horizontal
        pad_height := info.pad_height
        pad_width := info.pad_width }
      NArray.ComputeOne [diff.toNArray, top.toNArray, bottom.toNArray] bottom.Size op eng

/-- Lines 206-210. -/
def LrnForward (src : ImageBatch) (local_size : Int) (alpha beta k : Nat) (eng : Engine) :
    Outcome NArray :=
  let op := PhysicalOp.LrnForwardOp
    { local_size := local_size, alpha := alpha, beta := beta, k := k }
  NArray.ComputeOne [src.toNArray] src.Size op eng

/-- Lines 212-218. -/
def LrnBackward (top top_diff bottom : ImageBatch) (local_size : Int) (alpha beta k : Nat)
    (eng : Engine) : Outcome NArray :=
  if top.Size ≠ top_diff.Size then
    checkFailed "inputs sizes mismatch" eng
  else if top.Size ≠ bottom.Size then
    checkFailed "inputs sizes mismatch" eng
  else
    let op := PhysicalOp.LrnBackwardOp
      { local_size := local_size, alpha := alpha, beta := beta, k := k }
    NArray.ComputeOne [top.toNArray, top_diff.toNArray, bottom.toNArray] top.Size op eng

/-- The outcome of viewing a handle that does not have four dimensions as an
image batch or a filter.  Modelled from the spec: image batches and filters
have exactly four dimensions. -/
def rankFailed {α : Type} (eng : Engine) : Outcome α :=
  (.error (Fatal.check "dimension mismatch"), eng)

/-- Lines 55-78.  `records` is what the engine measures for the probe node. -/
def ConvForwardFindAlgorithm (src_shape filter_shape : Scale) (info : ConvInfo)
    (records : List AlgoProfResult) (eng : Engine) : Outcome (List AlgoProfResult) :=
  let (src_handle, eng) := NArray.Zeros src_shape eng
  match ImageBatch.ofNArray src_handle with
  | none => rankFailed eng
  | some src =>
    let (filter_handle, eng) := NArray.Zeros filter_shape eng
    match Filter.ofNArray filter_handle with
    | none => rankFailed eng
    | some filter =>
      if src.GetNumFeatureMaps ≠ filter.GetNumInputs then
        checkFailed "#input channels mismatch" eng
      else if info.stride_horizontal = 0 ∨ info.stride_vertical = 0 then
        divisionFailed eng
      else
        let new_size : Scale := [
          (src.GetWidth + 2 * info.pad_width - filter.GetWidth).tdiv info.stride_horizontal + 1,
          (src.GetHeight + 2 * info.pad_height - filter.GetHeight).tdiv info.stride_vertical + 1,
          filter.GetNumOutputs,
          src.GetNumImages]
        let (res, eng) := make_shared eng
        let op := PhysicalOp.ConvForwardFindAlgorithmOp {
          results := res
          pad_height := info.pad_height
          pad_width := info.pad_width
          stride_vertical := info.stride_vertical
          stride_horizontal := info.stride_horizontal }
        match NArray.ComputeOne [src.toNArray, filter.toNArray] new_size op eng with
        | (.error f, eng) => (.error f, eng)
        | (.ok ret, eng) =>
          let eng := NArray.Wait records ret eng
          (.ok (eng.containers.getD res []), eng)

/-- Lines 80-98.  `records` is what the engine measures for the probe node. -/
def ConvBackwardFilterFindAlgorithm (top_shape bottom_shape filter_shape : Scale)
    (info : ConvInfo) (records : List AlgoProfResult) (eng : Engine) :
    Outcome (List AlgoProfResult) :=
  let (top_handle, eng) := NArray.Zeros top_shape eng
  match ImageBatch.ofNArray top_handle with
  | none => rankFailed eng
  | some top =>
    let (bottom_handle, eng) := NArray.Zeros bottom_shape eng
    match ImageBatch.ofNArray bottom_handle with
    | none => rankFailed eng
    | some bottom =>
      if top.GetNumImages ≠ bottom.GetNumImages then
        checkFailed "#images mismatch" eng
      else
        let (res, eng) := make_shared eng
        let op := PhysicalOp.ConvBackwardFilterFindAlgorithmOp {
          results := res
          pad_height := info.pad_height
          pad_width := info.pad_width
          stride_vertical := info.stride_vertical
          stride_horizontal := info.stride_horizontal }
        match NArray.ComputeOne [top.toNArray, bottom.toNArray] filter_shape op eng with
        | (.error f, eng) => (.error f, eng)
        | (.ok ret, eng) =>
          let eng := NArray.Wait records ret eng
          (.ok (eng.containers.getD res []), eng)

/-- Lines 100-118.  `records` is what the engine measures for the probe node. -/
def ConvBackwardDataFindAlgorithm (top_shape bottom_shape filter_shape : Scale)
    (info : ConvInfo) (records : List AlgoProfResult) (eng : Engine) :
    Outcome (List AlgoProfResult) :=
  let (top_handle, eng) := NArray.Zeros top_shape eng
  match ImageBatch.ofNArray top_handle with
  | none => rankFailed eng
  | some top =>
    let (filter_handle, eng) := NArray.Zeros filter_shape eng
    match Filter.ofNArray filter_handle with
    | none => rankFailed eng
    | some filter =>
      if top.GetNumFeatureMaps ≠ filter.GetNumOutputs then
        checkFailed "#output channels mismatch" eng
      else
        let (res, eng) := make_shared eng
        let op := PhysicalOp.ConvBackwardDataFindAlgorithmOp {
          results := res
          pad_height := info.pad_height
          pad_width := info.pad_width
          stride_vertical := info.stride_vertical
          stride_horizontal := info.stride_horizontal }
        match NArray.ComputeOne [top.toNArray, filter.toNArray] bottom_shape op eng with
        | (.error f, eng) => (.error f, eng)
        | (.ok ret, eng) =>
          let eng := NArray.Wait records ret eng
          (.ok (eng.containers.getD res []), eng)

end Convolution

/-! ## The shape formulas as functions of one dimension -/

/-- The output dimension of the forward convolution, the expression of lines
11 and 12 (and 63, 64), over the integers; `convOutputDim32` is the same
expression on 32-bit `int`. -/
def convOutputDim (inDim pad filterDim stride : Int) : Int :=
  (inDim + 2 * pad - filterDim).tdiv stride + 1

/-- The uncorrected pooled dimension, the expression of lines 148 and 149 (and
180, 181), over the integers; `pooledRaw32` is the same expression on 32-bit
`int`. -/
def pooledRaw (inDim pad window stride : Int) : Int :=
  (inDim + 2 * pad - window + stride - 1).tdiv stride + 1

/-- The condition of the overlap correction on a pooled dimension, lines 150
and 153 (and 182, 185). -/
def overlaps (pooled inDim pad stride : Int) : Prop :=
  0 ≤ (pooled - 1) * stride - inDim - pad

instance (pooled inDim pad stride : Int) : Decidable (overlaps pooled inDim pad stride) :=
  inferInstanceAs (Decidable (0 ≤ (pooled - 1) * stride - inDim - pad))

/-- The pooled dimension after the overlap correction, lines 148-155 (and
180-187), over the integers; `pooledDim32` is the same computation on 32-bit
`int`. -/
def pooledDim (inDim pad window stride : Int) : Int :=
  if overlaps (pooledRaw inDim pad window stride) inDim pad stride then
    pooledRaw inDim pad window stride - 1
  else
    pooledRaw inDim pad window stride

/-! ## The formulas of the specification -/

/-- The forward-convolution output dimension as the specification writes it:
the mathematical floor of the rational quotient, plus one. -/
def convOutputDimSpec (inDim pad filterDim stride : Int) : Int :=
  Int.floor (((inDim + 2 * pad - filterDim : Int) : ℚ) / ((stride : Int) : ℚ)) + 1

/-- The uncorrected pooled dimension as the specification writes it: the
mathematical ceiling of the rational quotient, plus one. -/
def pooledRawSpec (inDim pad window stride : Int) : Int :=
  Int.ceil (((inDim + 2 * pad - window : Int) : ℚ) / ((stride : Int) : ℚ)) + 1

/-! ## States of the engine during a profiling call -/

/-- The engine state after the two probe tensors of a profiling call were
created, the first two statements of each find-algorithm operator. -/
def afterProbes (first second : Scale) (eng : Engine) : Engine :=
  { log := eng.log ++ [EngineCall.zeros first, EngineCall.zeros second],
    containers := eng.containers }

/-! ## Machine integers -/

/-- The smallest value of the 32-bit `int`. -/
def INT_MIN : Int := -2147483648

/-- The largest value of the 32-bit `int`. -/
def INT_MAX : Int := 2147483647

/-- A value that a 32-bit `int` can hold. -/
def fitsInt (x : Int) : Prop := INT_MIN ≤ x ∧ x ≤ INT_MAX

instance (x : Int) : Decidable (fitsInt x) :=
  inferInstanceAs (Decidable (INT_MIN ≤ x ∧ x ≤ INT_MAX))

/-- The 32-bit two's-complement value of an integer: what an `int` holds after
an operation whose exact result is `x`. -/
def wrapInt (x : Int) : Int := (x + 2147483648) % 4294967296 - 2147483648

/-- The operator `+` on `int`. -/
def add32 (a b : Int) : Int := wrapInt (a + b)

/-- The operator `-` on `int`. -/
def sub32 (a b : Int) : Int := wrapInt (a - b)

/-- The operator `*` on `int`. -/
def mul32 (a b : Int) : Int := wrapInt (a * b)

/-- The operator `/` on `int` for a non-zero divisor: the quotient truncated
toward zero.  The one quotient that does not fit, `INT_MIN / -1`, is wrapped
like the results of the other operators. -/
def div32 (a b : Int) : Int := wrapInt (a.tdiv b)

/-- The expression of lines 11 and 12 on 32-bit `int`. -/
def convOutputDim32 (inDim pad filterDim stride : Int) : Int :=
  add32 (div32 (sub32 (add32 inDim (mul32 2 pad)) filterDim) stride) 1

/-- The expression of lines 148 and 149 on 32-bit `int`. -/
def pooledRaw32 (inDim pad window stride : Int) : Int :=
  add32 (div32 (sub32 (add32 (sub32 (add32 inDim (mul32 2 pad)) window) stride) 1) stride) 1

/-- Lines 148-155 on 32-bit `int`: the pooled dimension after the overlap
correction. -/
def pooledDim32 (inDim pad window stride : Int) : Int :=
  if 0 ≤ sub32 (sub32 (mul32 (sub32 (pooledRaw32 inDim pad window stride) 1) stride) inDim)
      pad then
    sub32 (pooledRaw32 inDim pad window stride) 1
  else
    pooledRaw32 inDim pad window stride

/-- No overflow in the output dimension of the forward convolution: the exact
values of the numerator and of the result fit `int`. -/
def convFits (inDim pad filterDim stride : Int) : Prop :=
  fitsInt (inDim + 2 * pad - filterDim)
  ∧ fitsInt ((inDim + 2 * pad - filterDim).tdiv stride + 1)

instance (inDim pad filterDim stride : Int) : Decidable (convFits inDim pad filterDim stride) :=
  inferInstanceAs (Decidable (_ ∧ _))

/-- No overflow in the pooled dimension: the exact values of the numerator, of
the raw pooled dimension and of the expression of the overlap condition fit
`int`. -/
def pooledFits (inDim pad window stride : Int) : Prop :=
  fitsInt (inDim + 2 * pad - window + stride - 1)
  ∧ fitsInt ((inDim + 2 * pad - window + stride - 1).tdiv stride + 1)
  ∧ fitsInt ((inDim + 2 * pad - window + stride - 1).tdiv stride * stride - inDim - pad)

instance (inDim pad window stride : Int) : Decidable (pooledFits inDim pad window stride) :=
  inferInstanceAs (Decidable (_ ∧ _ ∧ _))

namespace Convolution

/-- Lines 6-23 with the arithmetic of `new_size` on 32-bit `int`. -/
def ConvForward32 (src : ImageBatch) (filter : Filter) (bias : NArray) (info : ConvInfo)
    (eng : Engine) : Outcome NArray :=
  if src.GetNumFeatureMaps ≠ filter.GetNumInputs then
    checkFailed "#input channels mismatch" eng
  else if bias.Size.NumDims ≠ 1 then
    checkFailed "bias dimension mismatch" eng
  else if bias.Size.index 0 ≠ filter.GetNumOutputs then
    checkFailed "bias size mismatch" eng
  else if info.stride_horizontal = 0 ∨ info.stride_vertical = 0 then
    divisionFailed eng
  else
    let new_size : Scale := [
      add32 (div32 (sub32 (add32 src.GetWidth (mul32 2 info.pad_width)) filter.GetWidth)
        info.stride_horizontal) 1,
      add32 (div32 (sub32 (add32 src.GetHeight (mul32 2 info.pad_height)) filter.GetHeight)
        info.stride_vertical) 1,
      filter.GetNumOutputs,
      src.GetNumImages]
    let op := PhysicalOp.ConvForwardOp {
      pad_height := info.pad_height
      pad_width := info.pad_width
      stride_vertical := info.stride_vertical
      stride_horizontal := info.stride_horizontal
      algo := info.forward_algorithm }
    NArray.ComputeOne [src.toNArray, filter.toNArray, bias] new_size op eng

/-- Lines 147-173 with the arithmetic of the pooled dimensions on 32-bit `int`. -/
def PoolingForward32 (src : ImageBatch) (info : PoolingInfo) (eng : Engine) :
    Outcome NArray :=
  if info.stride_vertical = 0 ∨ info.stride_horizontal = 0 then
    divisionFailed eng
  else
    let pooled_height :=
      add32 (div32 (sub32 (add32 (sub32 (add32 src.GetHeight (mul32 2 info.pad_height))
        info.height) info.stride_vertical) 1) info.stride_vertical) 1
    let pooled_width :=
      add32 (div32 (sub32 (add32 (sub32 (add32 src.GetWidth (mul32 2 info.pad_width))
        info.width) info.stride_horizontal) 1) info.stride_horizontal) 1
    let pooled_height :=
      if 0 ≤ sub32 (sub32 (mul32 (sub32 pooled_height 1) info.stride_vertical) src.GetHeight)
          info.pad_height then
        sub32 pooled_height 1
      else pooled_height
    let pooled_width :=
      if 0 ≤ sub32 (sub32 (mul32 (sub32 pooled_width 1) info.stride_horizontal) src.GetWidth)
          info.pad_width then
        sub32 pooled_width 1
      else pooled_width
    let new_size : Scale := [
      pooled_height,
      pooled_width,
      src.GetNumFeatureMaps,
      src.GetNumImages]
    let op := PhysicalOp.PoolingForwardOp {
      algorithm := info.algorithm
      height := info.height
      width := info.width
      stride_vertical := info.stride_vertical
      stride_horizontal := info.stride_horizontal
      pad_height := info.pad_height
      pad_width := info.pad_width }
    NArray.ComputeOne [src.toNArray] new_size op eng

end Convolution

/-! ## Integer division: truncation, floor and ceiling -/

theorem floor_div_eq_ediv (n s : Int) (hs : 0 < s) :
    Int.floor ((n : ℚ) / (s : ℚ)) = n / s := by
  obtain ⟨k, rfl⟩ := Int.eq_ofNat_of_zero_le hs.le
  exact_mod_cast Rat.floor_intCast_div_natCast n k

theorem ceil_div_eq_neg_ediv (n s : Int) (hs : 0 < s) :
    Int.ceil ((n : ℚ) / (s : ℚ)) = -((-n) / s) := by
  have h := floor_div_eq_ediv (-n) s hs
  have e : ((-n : Int) : ℚ) / (s : ℚ) = -((n : ℚ) / (s : ℚ)) := by
    push_cast; ring
  rw [e, Int.floor_neg] at h
  omega

/-- Truncating division of a non-positive numerator rounds up. -/
theorem tdiv_of_nonpos (n s : Int) (hn : n ≤ 0) (hs : 0 < s) :
    n.tdiv s = -((-n) / s) := by
  have h := Int.neg_tdiv (-n) s
  rw [neg_neg] at h
  rw [h, Int.tdiv_eq_ediv (by omega) hs.le]

/-- Flooring division of a number that the divisor does not divide, by the
division of its negation. -/
theorem ediv_of_not_dvd (n s : Int) (hs : 0 < s) (hd : ¬ s ∣ n) :
    n / s = -((-n) / s) - 1 := by
  have h1 := Int.emod_add_ediv (-n) s
  have h2 := Int.emod_nonneg (-n) hs.ne'
  have h3 := Int.emod_lt_of_pos (-n) hs
  have h4 : (-n) % s ≠ 0 := by
    intro h0
    exact hd ((Int.dvd_neg).1 (Int.dvd_of_emod_eq_zero h0))
  have h5 : n / s = -((-n) / s) - 1 ∧ n % s = s - (-n) % s := by
    rw [Int.ediv_emod_unique hs]
    refine ⟨?_, by omega, by omega⟩
    have e : s * (-(-n / s) - 1) = -(s * (-n / s)) - s := by ring
    rw [e]; omega
  exact h5.1

/-- Truncating division by a positive divisor is flooring division exactly on
non-negative numerators and on multiples of the divisor. -/
theorem tdiv_eq_ediv_iff (n s : Int) (hs : 0 < s) :
    n.tdiv s = n / s ↔ (0 ≤ n ∨ s ∣ n) := by
  constructor
  · intro h
    by_contra hc
    push_neg at hc
    obtain ⟨hn, hd⟩ := hc
    rw [tdiv_of_nonpos n s hn.le hs, ediv_of_not_dvd n s hs hd] at h
    omega
  · rintro (h | h)
    · exact Int.tdiv_eq_ediv h hs.le
    · exact Int.tdiv_eq_ediv_of_dvd h

/-- Otherwise truncation is one more than the floor. -/
theorem tdiv_eq_ediv_add_one (n s : Int) (hs : 0 < s) (hn : n < 0) (hd : ¬ s ∣ n) :
    n.tdiv s = n / s + 1 := by
  rw [tdiv_of_nonpos n s hn.le hs, ediv_of_not_dvd n s hs hd]
  omega

/-- The ceiling of a quotient by the usual integer formula. -/
theorem ceil_div_eq_ediv (n s : Int) (hs : 0 < s) :
    Int.ceil ((n : ℚ) / (s : ℚ)) = (n + s - 1) / s := by
  rw [ceil_div_eq_neg_ediv n s hs]
  have h1 := Int.emod_add_ediv (-n) s
  have h2 := Int.emod_nonneg (-n) hs.ne'
  have h3 := Int.emod_lt_of_pos (-n) hs
  have h5 : (n + s - 1) / s = -((-n) / s) ∧ (n + s - 1) % s = s - 1 - (-n) % s := by
    rw [Int.ediv_emod_unique hs]
    refine ⟨?_, by omega, by omega⟩
    have e : s * -(-n / s) = -(s * (-n / s)) := by ring
    rw [e]; omega
  exact h5.1.symm

theorem convOutputDimSpec_eq (inDim pad filterDim stride : Int) (hs : 0 < stride) :
    convOutputDimSpec inDim pad filterDim stride = (inDim + 2 * pad - filterDim) / stride + 1 := by
  unfold convOutputDimSpec
  rw [floor_div_eq_ediv _ _ hs]

theorem pooledRawSpec_eq (inDim pad window stride : Int) (hs : 0 < stride) :
    pooledRawSpec inDim pad window stride
      = (inDim + 2 * pad - window + stride - 1) / stride + 1 := by
  unfold pooledRawSpec
  rw [ceil_div_eq_ediv _ _ hs]

/-! ## The operators in closed form -/

/-- An accepted forward convolution submits one node of the convolution output
shape. -/
theorem ConvForward_of_accepted (src : ImageBatch) (filter : Filter) (bias : NArray)
    (info : ConvInfo) (eng : Engine) (r : NArray) (eng' : Engine)
    (h : Convolution.ConvForward src filter bias info eng = (.ok r, eng')) :
    r.size = [
      convOutputDim src.GetWidth info.pad_width filter.GetWidth info.stride_horizontal,
      convOutputDim src.GetHeight info.pad_height filter.GetHeight info.stride_vertical,
      filter.GetNumOutputs,
      src.GetNumImages] := by
  unfold Convolution.ConvForward at h
  split_ifs at h
  all_goals first
    | (simp [checkFailed, divisionFailed] at h; done)
    | (simp only [NArray.ComputeOne, Prod.mk.injEq, Except.ok.injEq] at h
       rw [← h.1]
       rfl)

/-- With non-zero strides the forward pooling submits one node whose shape lists
the corrected pooled height, the corrected pooled width, and the channel and
batch counts of the input, in this order. -/
theorem PoolingForward_eq (src : ImageBatch) (info : PoolingInfo) (eng : Engine)
    (hs : ¬ (info.stride_vertical = 0 ∨ info.stride_horizontal = 0)) :
    Convolution.PoolingForward src info eng
      = NArray.ComputeOne [src.toNArray]
          [pooledDim src.GetHeight info.pad_height info.height info.stride_vertical,
            pooledDim src.GetWidth info.pad_width info.width info.stride_horizontal,
            src.GetNumFeatureMaps,
            src.GetNumImages]
          (PhysicalOp.PoolingForwardOp {
            algorithm := info.algorithm
            height := info.height
            width := info.width
            stride_vertical := info.stride_vertical
            stride_horizontal := info.stride_horizontal
            pad_height := info.pad_height
            pad_width := info.pad_width })
          eng := by
  unfold Convolution.PoolingForward
  rw [if_neg hs]
  rfl

/-- The product bound of truncating division by a positive divisor: the
quotient times the divisor does not exceed a non-negative numerator, and is
not positive for a negative one. -/
theorem tdiv_mul_le (m s : Int) (hs : 0 < s) :
    (0 ≤ m → m.tdiv s * s ≤ m) ∧ (m < 0 → m.tdiv s * s ≤ 0) := by
  constructor
  · intro hm
    rw [Int.tdiv_eq_ediv hm hs.le]
    exact Int.ediv_mul_le m hs.ne'
  · intro hm
    rw [tdiv_of_nonpos m s hm.le hs]
    have h1 : 0 ≤ (-m) / s := Int.ediv_nonneg (by omega) hs.le
    have h2 : 0 ≤ ((-m) / s) * s := Int.mul_nonneg h1 hs.le
    have e : -(-m / s) * s = -((-m / s) * s) := by ring
    rw [e]; omega

/-- After the overlap correction the overlap condition is false, provided the
pad does not exceed the window. -/
theorem pooledDim_not_overlaps (inDim pad window stride : Int)
    (hd : 0 ≤ inDim) (hp : 0 ≤ pad) (hs : 0 < stride) (hpw : pad ≤ window) :
    ¬ overlaps (pooledDim inDim pad window stride) inDim pad stride := by
  unfold pooledDim
  split_ifs with h
  · unfold overlaps pooledRaw at h ⊢
    have hb := tdiv_mul_le (inDim + 2 * pad - window + stride - 1) stride hs
    generalize (inDim + 2 * pad - window + stride - 1).tdiv stride = t at h hb ⊢
    have e1 : (t + 1 - 1) * stride = t * stride := by ring
    have e2 : (t + 1 - 1 - 1) * stride = t * stride - stride := by ring
    rw [e1] at h
    rw [e2]
    by_cases hm : 0 ≤ inDim + 2 * pad - window + stride - 1
    · have := hb.1 hm
      omega
    · have := hb.2 (by omega)
      omega
  · exact h

/-- The backward pooling as a chain of its checks, with the recomputed pooled
dimensions written as `pooledDim`. -/
theorem PoolingBackward_eq (diff top bottom : ImageBatch) (info : PoolingInfo) (eng : Engine) :
    Convolution.PoolingBackward diff top bottom info eng
      = if diff.Size ≠ top.Size then
          checkFailed "inputs sizes mismatch" eng
        else if diff.GetNumImages ≠ bottom.GetNumImages then
          checkFailed "#images mismatch" eng
        else if diff.GetNumFeatureMaps ≠ bottom.GetNumFeatureMaps then
          checkFailed "#channels mismatch" eng
        else if info.stride_vertical = 0 ∨ info.stride_horizontal = 0 then
          divisionFailed eng
        else if top.GetHeight
            ≠ pooledDim bottom.GetHeight info.pad_height info.height info.stride_vertical then
          checkFailed "height mismatch" eng
        else if top.GetWidth
            ≠ pooledDim bottom.GetWidth info.pad_width info.width info.stride_horizontal then
          checkFailed "width mismatch" eng
        else
          NArray.ComputeOne [diff.toNArray, top.toNArray, bottom.toNArray] bottom.Size
            (PhysicalOp.PoolingBackwardOp {
              algorithm := info.algorithm
              height := info.height
              width := info.width
              stride_vertical := info.stride_vertical
              stride_horizontal := info.stride_horizontal
              pad_height := info.pad_height
              pad_width := info.pad_width })
            eng := by
  rfl

/-- A handle of the shape of an image batch is an image batch with the same
dimensions. -/
theorem ImageBatch_ofNArray_fresh (b : ImageBatch) (n : Nat) :
    ImageBatch.ofNArray { id := n, size := b.Size }
      = some { id := n, width := b.width, height := b.height,
               num_feature_maps := b.num_feature_maps, num_images := b.num_images } := by
  rfl

/-- A handle of the shape of a filter is a filter with the same dimensions. -/
theorem Filter_ofNArray_fresh (f : Filter) (n : Nat) :
    Filter.ofNArray { id := n, size := f.Size }
      = some { id := n, width := f.width, height := f.height,
               num_inputs := f.num_inputs, num_outputs := f.num_outputs } := by
  rfl

/-- Waiting for a profiling node that was submitted last, with a container that
was created last: the wait is logged and the container holds the records. -/
theorem Wait_own_node (records : List AlgoProfResult) (log : List EngineCall)
    (containers : List (List AlgoProfResult)) (inputs : List NArray) (size : Scale)
    (op : PhysicalOp) (hop : op.resultsRef = some containers.length) :
    NArray.Wait records { id := log.length, size := size }
        { log := log ++ [EngineCall.submitNode inputs size op],
          containers := containers ++ [[]] }
      = { log := log ++ [EngineCall.submitNode inputs size op,
                         EngineCall.wait { id := log.length, size := size }],
          containers := containers ++ [records] } := by
  unfold NArray.Wait
  simp [hop]


/-- The forward profiling call on the shapes of an image batch and a filter, as
the chain of its steps. -/
theorem ConvForwardFindAlgorithm_eq (src : ImageBatch) (filter : Filter) (info : ConvInfo)
    (records : List AlgoProfResult) (eng : Engine) :
    Convolution.ConvForwardFindAlgorithm src.Size filter.Size info records eng
      = if src.GetNumFeatureMaps ≠ filter.GetNumInputs then
          checkFailed "#input channels mismatch" (afterProbes src.Size filter.Size eng)
        else if info.stride_horizontal = 0 ∨ info.stride_vertical = 0 then
          divisionFailed (afterProbes src.Size filter.Size eng)
        else
          (.ok records,
            { log := eng.log ++ [
                EngineCall.zeros src.Size,
                EngineCall.zeros filter.Size,
                EngineCall.submitNode
                  [{ id := eng.log.length, size := src.Size },
                    { id := eng.log.length + 1, size := filter.Size }]
                  [convOutputDim src.GetWidth info.pad_width filter.GetWidth
                      info.stride_horizontal,
                    convOutputDim src.GetHeight info.pad_height filter.GetHeight
                      info.stride_vertical,
                    filter.GetNumOutputs,
                    src.GetNumImages]
                  (PhysicalOp.ConvForwardFindAlgorithmOp {
                    results := eng.containers.length
                    pad_height := info.pad_height
                    pad_width := info.pad_width
                    stride_vertical := info.stride_vertical
                    stride_horizontal := info.stride_horizontal }),
                EngineCall.wait
                  { id := eng.log.length + 2,
                    size := [convOutputDim src.GetWidth info.pad_width filter.GetWidth
                        info.stride_horizontal,
                      convOutputDim src.GetHeight info.pad_height filter.GetHeight
                        info.stride_vertical,
                      filter.GetNumOutputs,
                      src.GetNumImages] }],
              containers := eng.containers ++ [records] }) := by
  unfold Convolution.ConvForwardFindAlgorithm
  simp only [NArray.Zeros, Engine.fresh, ImageBatch_ofNArray_fresh, Filter_ofNArray_fresh,
    make_shared, NArray.ComputeOne, ImageBatch.GetNumFeatureMaps, Filter.GetNumInputs,
    ImageBatch.GetWidth, ImageBatch.GetHeight, ImageBatch.GetNumImages,
    Filter.GetWidth, Filter.GetHeight, Filter.GetNumOutputs, convOutputDim]
  by_cases h1 : src.num_feature_maps ≠ filter.num_inputs
  · rw [if_pos h1, if_pos h1]
    simp [checkFailed, afterProbes]
  · rw [if_neg h1, if_neg h1]
    by_cases h2 : info.stride_horizontal = 0 ∨ info.stride_vertical = 0
    · rw [if_pos h2, if_pos h2]
      simp [divisionFailed, afterProbes]
    · rw [if_neg h2, if_neg h2]
      rw [Wait_own_node _ _ _ _ _ _ (by rfl)]
      simp [ImageBatch.toNArray, Filter.toNArray, ImageBatch.Size, Filter.Size]

/-- The backward-filter profiling call on the shapes of two image batches, as
the chain of its steps. -/
theorem ConvBackwardFilterFindAlgorithm_eq (top bottom : ImageBatch) (filter_shape : Scale)
    (info : ConvInfo) (records : List AlgoProfResult) (eng : Engine) :
    Convolution.ConvBackwardFilterFindAlgorithm top.Size bottom.Size filter_shape info
        records eng
      = if top.GetNumImages ≠ bottom.GetNumImages then
          checkFailed "#images mismatch" (afterProbes top.Size bottom.Size eng)
        else
          (.ok records,
            { log := eng.log ++ [
                EngineCall.zeros top.Size,
                EngineCall.zeros bottom.Size,
                EngineCall.submitNode
                  [{ id := eng.log.length, size := top.Size },
                    { id := eng.log.length + 1, size := bottom.Size }]
                  filter_shape
                  (PhysicalOp.ConvBackwardFilterFindAlgorithmOp {
                    results := eng.containers.length
                    pad_height := info.pad_height
                    pad_width := info.pad_width
                    stride_vertical := info.stride_vertical
                    stride_horizontal := info.stride_horizontal }),
                EngineCall.wait { id := eng.log.length + 2, size := filter_shape }],
              containers := eng.containers ++ [records] }) := by
  unfold Convolution.ConvBackwardFilterFindAlgorithm
  simp only [NArray.Zeros, Engine.fresh, ImageBatch_ofNArray_fresh,
    make_shared, NArray.ComputeOne, ImageBatch.GetNumImages]
  by_cases h1 : top.num_images ≠ bottom.num_images
  · rw [if_pos h1, if_pos h1]
    simp [checkFailed, afterProbes]
  · rw [if_neg h1, if_neg h1]
    rw [Wait_own_node _ _ _ _ _ _ (by rfl)]
    simp [ImageBatch.toNArray, ImageBatch.Size]

/-- The backward-data profiling call on the shapes of an image batch and a
filter, as the chain of its steps. -/
theorem ConvBackwardDataFindAlgorithm_eq (top : ImageBatch) (bottom_shape : Scale)
    (filter : Filter) (info : ConvInfo) (records : List AlgoProfResult) (eng : Engine) :
    Convolution.ConvBackwardDataFindAlgorithm top.Size bottom_shape filter.Size info
        records eng
      = if top.GetNumFeatureMaps ≠ filter.GetNumOutputs then
          checkFailed "#output channels mismatch" (afterProbes top.Size filter.Size eng)
        else
          (.ok records,
            { log := eng.log ++ [
                EngineCall.zeros top.Size,
                EngineCall.zeros filter.Size,
                EngineCall.submitNode
                  [{ id := eng.log.length, size := top.Size },
                    { id := eng.log.length + 1, size := filter.Size }]
                  bottom_shape
                  (PhysicalOp.ConvBackwardDataFindAlgorithmOp {
                    results := eng.containers.length
                    pad_height := info.pad_height
                    pad_width := info.pad_width
                    stride_vertical := info.stride_vertical
                    stride_horizontal := info.stride_horizontal }),
                EngineCall.wait { id := eng.log.length + 2, size := bottom_shape }],
              containers := eng.containers ++ [records] }) := by
  unfold Convolution.ConvBackwardDataFindAlgorithm
  simp only [NArray.Zeros, Engine.fresh, ImageBatch_ofNArray_fresh, Filter_ofNArray_fresh,
    make_shared, NArray.ComputeOne, ImageBatch.GetNumFeatureMaps, Filter.GetNumOutputs]
  by_cases h1 : top.num_feature_maps ≠ filter.num_outputs
  · rw [if_pos h1, if_pos h1]
    simp [checkFailed, afterProbes]
  · rw [if_neg h1, if_neg h1]
    rw [Wait_own_node _ _ _ _ _ _ (by rfl)]
    simp [ImageBatch.toNArray, Filter.toNArray, ImageBatch.Size, Filter.Size]

/-- A failed check leaves the engine as it was. -/
theorem engine_of_checkFailed {α : Type} (message : String) (eng eng' : Engine) (f : Fatal)
    (h : (checkFailed message eng : Outcome α) = (.error f, eng')) : eng' = eng := by
  simp only [checkFailed, Prod.mk.injEq] at h
  exact h.2.symm

/-- A failed division leaves the engine as it was. -/
theorem engine_of_divisionFailed {α : Type} (eng eng' : Engine) (f : Fatal)
    (h : (divisionFailed eng : Outcome α) = (.error f, eng')) : eng' = eng := by
  simp only [divisionFailed, Prod.mk.injEq] at h
  exact h.2.symm

/-- Submitting a node always returns a handle. -/
theorem ComputeOne_ne_error (params : List NArray) (size : Scale) (op : PhysicalOp)
    (eng eng' : Engine) (f : Fatal) :
    NArray.ComputeOne params size op eng ≠ (.error f, eng') := by
  simp [NArray.ComputeOne]

/-- A truncated quotient by a positive divisor is at least -1 exactly when the
numerator is above minus twice the divisor. -/
theorem tdiv_add_one_nonneg_iff (n s : Int) (hs : 0 < s) :
    0 ≤ n.tdiv s + 1 ↔ -(2 * s) < n := by
  by_cases hn : 0 ≤ n
  · have h := Int.tdiv_nonneg hn hs.le
    constructor <;> intro _ <;> omega
  · rw [tdiv_of_nonpos n s (by omega) hs]
    have h := @Int.le_ediv_iff_mul_le 2 (-n) s hs
    constructor
    · intro h1
      by_contra hc
      have h2 : 2 ≤ -n / s := h.2 (by omega)
      omega
    · intro h1
      by_contra hc
      have h2 : 2 * s ≤ -n := h.1 (by omega)
      omega

/-- The corrected pooled dimension is non-negative exactly when the window is
below inDim + 2*pad + 3*stride - 1. -/
theorem pooledDim_nonneg_iff (inDim pad window stride : Int)
    (hd : 0 ≤ inDim) (hp : 0 ≤ pad) (hs : 0 < stride) :
    0 ≤ pooledDim inDim pad window stride ↔ window < inDim + 2 * pad + 3 * stride - 1 := by
  have key := tdiv_add_one_nonneg_iff (inDim + 2 * pad - window + stride - 1) stride hs
  unfold pooledDim
  split_ifs with h
  · unfold overlaps pooledRaw at h
    unfold pooledRaw
    generalize (inDim + 2 * pad - window + stride - 1).tdiv stride = t at h key ⊢
    have e1 : (t + 1 - 1) * stride = t * stride := by ring
    rw [e1] at h
    have ht : 0 ≤ t := by
      by_contra hc
      have h3 : t * stride ≤ (-1) * stride :=
        Int.mul_le_mul_of_nonneg_right (by omega) hs.le
      omega
    constructor
    · intro _
      have := key.1 (by omega)
      omega
    · intro _
      omega
  · unfold pooledRaw at key ⊢
    rw [key]
    constructor <;> intro _ <;> omega

/-- Truncating division by a positive divisor is monotone in the numerator. -/
theorem tdiv_le_tdiv (a b s : Int) (hs : 0 < s) (h : a ≤ b) : a.tdiv s ≤ b.tdiv s := by
  by_cases ha : 0 ≤ a
  · rw [Int.tdiv_eq_ediv ha hs.le, Int.tdiv_eq_ediv (by omega) hs.le]
    exact Int.ediv_le_ediv hs h
  · by_cases hb : 0 ≤ b
    · have h1 := Int.tdiv_nonneg hb hs.le
      rw [tdiv_of_nonpos a s (by omega) hs]
      have h2 : 0 ≤ (-a) / s := Int.ediv_nonneg (by omega) hs.le
      omega
    · rw [tdiv_of_nonpos a s (by omega) hs, tdiv_of_nonpos b s (by omega) hs]
      have h2 : (-b) / s ≤ (-a) / s := Int.ediv_le_ediv hs (by omega)
      omega

/-- The corrected pooled dimension is monotone in the input dimension. -/
theorem pooledDim_mono (a b pad window stride : Int) (hs : 0 < stride) (h : a ≤ b) :
    pooledDim a pad window stride ≤ pooledDim b pad window stride := by
  have ht := tdiv_le_tdiv (a + 2 * pad - window + stride - 1)
    (b + 2 * pad - window + stride - 1) stride hs (by omega)
  unfold pooledDim overlaps pooledRaw
  generalize (a + 2 * pad - window + stride - 1).tdiv stride = ta at ht ⊢
  generalize (b + 2 * pad - window + stride - 1).tdiv stride = tb at ht ⊢
  have ea : (ta + 1 - 1) * stride = ta * stride := by ring
  have eb : (tb + 1 - 1) * stride = tb * stride := by ring
  simp only [ea, eb]
  by_cases heq : ta = tb
  · subst heq
    split_ifs <;> omega
  · split_ifs <;> omega

/-- Without padding and with stride <= window <= inDim the correction does not
apply, the pooled dimension is the ceiling formula, and the windows cover the
input. -/
theorem pooledDim_pad_zero (inDim window stride : Int)
    (hs : 1 ≤ stride) (hsw : stride ≤ window) (hwd : window ≤ inDim) :
    ¬ overlaps (pooledRaw inDim 0 window stride) inDim 0 stride
    ∧ pooledDim inDim 0 window stride = pooledRawSpec inDim 0 window stride
    ∧ 1 ≤ pooledDim inDim 0 window stride
    ∧ (pooledDim inDim 0 window stride - 1) * stride < inDim
    ∧ inDim ≤ (pooledDim inDim 0 window stride - 1) * stride + window := by
  have hs0 : 0 < stride := by omega
  have hm : 0 ≤ inDim + 2 * 0 - window + stride - 1 := by omega
  have h1 := Int.ediv_mul_le (inDim + 2 * 0 - window + stride - 1) hs0.ne'
  have h2 := Int.lt_ediv_add_one_mul_self (inDim + 2 * 0 - window + stride - 1) hs0
  have h3 := Int.ediv_nonneg hm hs0.le
  have hspec := pooledRawSpec_eq inDim 0 window stride hs0
  have hraw : pooledRaw inDim 0 window stride
      = (inDim + 2 * 0 - window + stride - 1) / stride + 1 := by
    unfold pooledRaw
    rw [Int.tdiv_eq_ediv hm hs0.le]
  generalize (inDim + 2 * 0 - window + stride - 1) / stride = t at h1 h2 h3 hspec hraw
  have e1 : (t + 1 - 1) * stride = t * stride := by ring
  have e2 : (t + 1) * stride = t * stride + stride := by ring
  rw [e2] at h2
  have hno : ¬ overlaps (pooledRaw inDim 0 window stride) inDim 0 stride := by
    unfold overlaps
    rw [hraw, e1]
    omega
  have hdim : pooledDim inDim 0 window stride = t + 1 := by
    unfold pooledDim
    rw [if_neg hno, hraw]
  refine ⟨hno, ?_, ?_, ?_, ?_⟩
  · rw [hdim, hspec]
  · rw [hdim]; omega
  · rw [hdim, e1]; omega
  · rw [hdim, e1]; omega

/-- An accepted forward profiling call: the result is what the engine measured,
the log gains the two probes, the node with a reference to a new container and
the wait, and the new container holds the records. -/
theorem ConvForwardFindAlgorithm_accepted (src : ImageBatch) (filter : Filter)
    (info : ConvInfo) (records : List AlgoProfResult) (eng : Engine)
    (hc : src.GetNumFeatureMaps = filter.GetNumInputs)
    (hs : ¬ (info.stride_horizontal = 0 ∨ info.stride_vertical = 0)) :
    ∃ eng' inputs shape handle,
      Convolution.ConvForwardFindAlgorithm src.Size filter.Size info records eng
        = (.ok records, eng')
      ∧ eng'.containers = eng.containers ++ [records]
      ∧ eng'.log = eng.log ++ [EngineCall.zeros src.Size, EngineCall.zeros filter.Size,
          EngineCall.submitNode inputs shape
            (PhysicalOp.ConvForwardFindAlgorithmOp {
              results := eng.containers.length
              pad_height := info.pad_height
              pad_width := info.pad_width
              stride_vertical := info.stride_vertical
              stride_horizontal := info.stride_horizontal }),
          EngineCall.wait handle] := by
  rw [ConvForwardFindAlgorithm_eq, if_neg (not_not.2 hc), if_neg hs]
  exact ⟨_, _, _, _, rfl, rfl, rfl⟩

/-- An accepted backward-filter profiling call, as for the forward one. -/
theorem ConvBackwardFilterFindAlgorithm_accepted (top bottom : ImageBatch)
    (filter_shape : Scale) (info : ConvInfo) (records : List AlgoProfResult) (eng : Engine)
    (hc : top.GetNumImages = bottom.GetNumImages) :
    ∃ eng' inputs shape handle,
      Convolution.ConvBackwardFilterFindAlgorithm top.Size bottom.Size filter_shape info
        records eng = (.ok records, eng')
      ∧ eng'.containers = eng.containers ++ [records]
      ∧ eng'.log = eng.log ++ [EngineCall.zeros top.Size, EngineCall.zeros bottom.Size,
          EngineCall.submitNode inputs shape
            (PhysicalOp.ConvBackwardFilterFindAlgorithmOp {
              results := eng.containers.length
              pad_height := info.pad_height
              pad_width := info.pad_width
              stride_vertical := info.stride_vertical
              stride_horizontal := info.stride_horizontal }),
          EngineCall.wait handle] := by
  rw [ConvBackwardFilterFindAlgorithm_eq, if_neg (not_not.2 hc)]
  exact ⟨_, _, _, _, rfl, rfl, rfl⟩

/-- An accepted backward-data profiling call, as for the forward one. -/
theorem ConvBackwardDataFindAlgorithm_accepted (top : ImageBatch) (bottom_shape : Scale)
    (filter : Filter) (info : ConvInfo) (records : List AlgoProfResult) (eng : Engine)
    (hc : top.GetNumFeatureMaps = filter.GetNumOutputs) :
    ∃ eng' inputs shape handle,
      Convolution.ConvBackwardDataFindAlgorithm top.Size bottom_shape filter.Size info
        records eng = (.ok records, eng')
      ∧ eng'.containers = eng.containers ++ [records]
      ∧ eng'.log = eng.log ++ [EngineCall.zeros top.Size, EngineCall.zeros filter.Size,
          EngineCall.submitNode inputs shape
            (PhysicalOp.ConvBackwardDataFindAlgorithmOp {
              results := eng.containers.length
              pad_height := info.pad_height
              pad_width := info.pad_width
              stride_vertical := info.stride_vertical
              stride_horizontal := info.stride_horizontal }),
          EngineCall.wait handle] := by
  rw [ConvBackwardDataFindAlgorithm_eq, if_neg (not_not.2 hc)]
  exact ⟨_, _, _, _, rfl, rfl, rfl⟩

/-- A new shared container is empty, did not exist before, and leaves the
containers that existed as they were. -/
theorem make_shared_fresh (eng : Engine) :
    (make_shared eng).2.containers.get? (make_shared eng).1 = some []
    ∧ eng.containers.get? (make_shared eng).1 = none
    ∧ (make_shared eng).2.log = eng.log
    ∧ ∀ i, i < eng.containers.length →
        (make_shared eng).2.containers.get? i = eng.containers.get? i := by
  refine ⟨?_, ?_, rfl, ?_⟩
  · simp [make_shared]
  · simp [make_shared]
  · intro i hi
    simp [make_shared, List.getElem?_append_left hi]

/-- A value that fits `int` is its own machine value. -/
theorem wrapInt_of_fits (x : Int) (h : fitsInt x) : wrapInt x = x := by
  unfold fitsInt INT_MIN INT_MAX at h
  unfold wrapInt
  omega

/-- A truncated quotient by a positive divisor lies between zero and the
numerator. -/
theorem tdiv_between (m s : Int) (hs : 0 < s) :
    (0 ≤ m → 0 ≤ m.tdiv s ∧ m.tdiv s ≤ m) ∧ (m ≤ 0 → m ≤ m.tdiv s ∧ m.tdiv s ≤ 0) := by
  constructor
  · intro hm
    rw [Int.tdiv_eq_ediv hm hs.le]
    exact ⟨Int.ediv_nonneg hm hs.le, Int.ediv_le_self s hm⟩
  · intro hm
    rw [tdiv_of_nonpos m s hm hs]
    have h1 : 0 ≤ (-m) / s := Int.ediv_nonneg (by omega) hs.le
    have h2 : (-m) / s ≤ -m := Int.ediv_le_self s (by omega)
    omega

/-- A truncated quotient of a value that fits `int` by a positive divisor fits
`int`. -/
theorem fitsInt_tdiv (m s : Int) (hs : 0 < s) (h : fitsInt m) : fitsInt (m.tdiv s) := by
  have hb := tdiv_between m s hs
  unfold fitsInt INT_MIN INT_MAX at h ⊢
  by_cases hm : 0 ≤ m
  · have := hb.1 hm
    omega
  · have := hb.2 (by omega)
    omega

/-- Without overflow the machine value of the convolution output dimension is
the exact one. -/
theorem convOutputDim32_eq (inDim pad filterDim stride : Int) (hs : 0 < stride)
    (h : convFits inDim pad filterDim stride) :
    convOutputDim32 inDim pad filterDim stride
      = (inDim + 2 * pad - filterDim).tdiv stride + 1 := by
  obtain ⟨h1, h2⟩ := h
  have hn : sub32 (add32 inDim (mul32 2 pad)) filterDim = inDim + 2 * pad - filterDim := by
    rw [← wrapInt_of_fits _ h1]
    unfold sub32 add32 mul32 wrapInt
    omega
  have hq := wrapInt_of_fits _ (fitsInt_tdiv _ stride hs h1)
  unfold convOutputDim32
  rw [hn]
  unfold div32 add32
  rw [hq, wrapInt_of_fits _ h2]

/-- Without overflow the machine value of the raw pooled dimension is the exact
one. -/
theorem pooledRaw32_eq (inDim pad window stride : Int) (hs : 0 < stride)
    (h1 : fitsInt (inDim + 2 * pad - window + stride - 1))
    (h2 : fitsInt ((inDim + 2 * pad - window + stride - 1).tdiv stride + 1)) :
    pooledRaw32 inDim pad window stride
      = (inDim + 2 * pad - window + stride - 1).tdiv stride + 1 := by
  have hn : sub32 (add32 (sub32 (add32 inDim (mul32 2 pad)) window) stride) 1
      = inDim + 2 * pad - window + stride - 1 := by
    rw [← wrapInt_of_fits _ h1]
    unfold sub32 add32 mul32 wrapInt
    omega
  have hq := wrapInt_of_fits _ (fitsInt_tdiv _ stride hs h1)
  unfold pooledRaw32
  rw [hn]
  unfold div32 add32
  rw [hq, wrapInt_of_fits _ h2]

/-- Without overflow the machine value of the corrected pooled dimension is the
exact one. -/
theorem pooledDim32_eq (inDim pad window stride : Int) (hs : 0 < stride)
    (h : pooledFits inDim pad window stride) :
    pooledDim32 inDim pad window stride = pooledDim inDim pad window stride := by
  obtain ⟨h1, h2, h3⟩ := h
  have hraw := pooledRaw32_eq inDim pad window stride hs h1 h2
  have hq := fitsInt_tdiv _ stride hs h1
  unfold pooledDim32 pooledDim overlaps pooledRaw
  rw [hraw]
  generalize (inDim + 2 * pad - window + stride - 1).tdiv stride = t at h2 h3 hq ⊢
  have e1 : sub32 (t + 1) 1 = t := by
    rw [← wrapInt_of_fits _ hq]
    unfold sub32 wrapInt
    omega
  have e2 : sub32 (sub32 (mul32 t stride) inDim) pad = t * stride - inDim - pad := by
    rw [← wrapInt_of_fits _ h3]
    unfold sub32 mul32 wrapInt
    generalize t * stride = x
    omega
  have e3 : (t + 1 - 1) * stride = t * stride := by ring
  rw [e1, e2]
  simp only [e3]
  split_ifs <;> omega

/-- An accepted forward convolution on 32-bit `int` submits one node of the
machine output shape. -/
theorem ConvForward32_of_accepted (src : ImageBatch) (filter : Filter) (bias : NArray)
    (info : ConvInfo) (eng : Engine) (r : NArray) (eng' : Engine)
    (h : Convolution.ConvForward32 src filter bias info eng = (.ok r, eng')) :
    r.size = [
      convOutputDim32 src.GetWidth info.pad_width filter.GetWidth info.stride_horizontal,
      convOutputDim32 src.GetHeight info.pad_height filter.GetHeight info.stride_vertical,
      filter.GetNumOutputs,
      src.GetNumImages] := by
  unfold Convolution.ConvForward32 at h
  split_ifs at h
  · exact absurd h (by simp [checkFailed])
  · exact absurd h (by simp [checkFailed])
  · exact absurd h (by simp [checkFailed])
  · exact absurd h (by simp [divisionFailed])
  · simp only [NArray.ComputeOne, Prod.mk.injEq, Except.ok.injEq] at h
    rw [← h.1]
    rfl

/-- With non-zero strides the forward pooling on 32-bit `int` submits one node
whose shape lists the machine values of the corrected pooled height and width
and the channel and batch counts of the input. -/
theorem PoolingForward32_eq (src : ImageBatch) (info : PoolingInfo) (eng : Engine)
    (hs : ¬ (info.stride_vertical = 0 ∨ info.stride_horizontal = 0)) :
    Convolution.PoolingForward32 src info eng
      = NArray.ComputeOne [src.toNArray]
          [pooledDim32 src.GetHeight info.pad_height info.height info.stride_vertical,
            pooledDim32 src.GetWidth info.pad_width info.width info.stride_horizontal,
            src.GetNumFeatureMaps,
            src.GetNumImages]
          (PhysicalOp.PoolingForwardOp {
            algorithm := info.algorithm
            height := info.height
            width := info.width
            stride_vertical := info.stride_vertical
            stride_horizontal := info.stride_horizontal
            pad_height := info.pad_height
            pad_width := info.pad_width })
          eng := by
  unfold Convolution.PoolingForward32
  rw [if_neg hs]
  rfl

/-- Without overflow the forward pooling on 32-bit `int` is the forward pooling
over the integers. -/
theorem PoolingForward32_eq_exact (src : ImageBatch) (info : PoolingInfo) (eng : Engine)
    (hsv : 0 < info.stride_vertical) (hsh : 0 < info.stride_horizontal)
    (hh : pooledFits src.GetHeight info.pad_height info.height info.stride_vertical)
    (hw : pooledFits src.GetWidth info.pad_width info.width info.stride_horizontal) :
    Convolution.PoolingForward32 src info eng = Convolution.PoolingForward src info eng := by
  have hs : ¬ (info.stride_vertical = 0 ∨ info.stride_horizontal = 0) := by omega
  rw [PoolingForward32_eq src info eng hs, PoolingForward_eq src info eng hs,
    pooledDim32_eq _ _ _ _ hsv hh, pooledDim32_eq _ _ _ _ hsh hw]

/-- Without overflow the forward convolution on 32-bit `int` is the forward
convolution over the integers. -/
theorem ConvForward32_eq_exact (src : ImageBatch) (filter : Filter) (bias : NArray)
    (info : ConvInfo) (eng : Engine)
    (hsh : 0 < info.stride_horizontal) (hsv : 0 < info.stride_vertical)
    (hw : convFits src.GetWidth info.pad_width filter.GetWidth info.stride_horizontal)
    (hh : convFits src.GetHeight info.pad_height filter.GetHeight info.stride_vertical) :
    Convolution.ConvForward32 src filter bias info eng
      = Convolution.ConvForward src filter bias info eng := by
  have e1 := convOutputDim32_eq _ _ _ _ hsh hw
  have e2 := convOutputDim32_eq _ _ _ _ hsv hh
  unfold convOutputDim32 at e1 e2
  unfold Convolution.ConvForward32 Convolution.ConvForward
  simp only [e1, e2]

/-- A shape either is the shape of an image batch, or no handle of that shape is
an image batch. -/
theorem ImageBatch_ofNArray_cases (shape : Scale) :
    (∀ n : Nat, ImageBatch.ofNArray { id := n, size := shape } = none)
    ∨ ∃ b : ImageBatch, shape = b.Size := by
  rcases shape with _ | ⟨a, _ | ⟨b, _ | ⟨c, _ | ⟨d, _ | ⟨e, t⟩⟩⟩⟩⟩
  · exact Or.inl fun _ => rfl
  · exact Or.inl fun _ => rfl
  · exact Or.inl fun _ => rfl
  · exact Or.inl fun _ => rfl
  · exact Or.inr
      ⟨{ id := 0, width := a, height := b, num_feature_maps := c, num_images := d }, rfl⟩
  · exact Or.inl fun _ => rfl

/-- A shape either is the shape of a filter, or no handle of that shape is a
filter. -/
theorem Filter_ofNArray_cases (shape : Scale) :
    (∀ n : Nat, Filter.ofNArray { id := n, size := shape } = none)
    ∨ ∃ f : Filter, shape = f.Size := by
  rcases shape with _ | ⟨a, _ | ⟨b, _ | ⟨c, _ | ⟨d, _ | ⟨e, t⟩⟩⟩⟩⟩
  · exact Or.inl fun _ => rfl
  · exact Or.inl fun _ => rfl
  · exact Or.inl fun _ => rfl
  · exact Or.inl fun _ => rfl
  · exact Or.inr
      ⟨{ id := 0, width := a, height := b, num_inputs := c, num_outputs := d }, rfl⟩
  · exact Or.inl fun _ => rfl

/-- What a forward profiling call that stops without a result has done, for
shapes of any rank: it created the first probe tensor, or both, and nothing
else; if it stopped at the channel check it created both. -/
theorem ConvForwardFindAlgorithm_rejected (src_shape filter_shape : Scale) (info : ConvInfo)
    (records : List AlgoProfResult) (eng eng' : Engine) (f : Fatal)
    (h : Convolution.ConvForwardFindAlgorithm src_shape filter_shape info records eng
      = (.error f, eng')) :
    eng'.containers = eng.containers
    ∧ (eng'.log = eng.log ++ [EngineCall.zeros src_shape]
      ∨ eng'.log = eng.log ++ [EngineCall.zeros src_shape, EngineCall.zeros filter_shape])
    ∧ (f = Fatal.check "#input channels mismatch"
      → eng'.log = eng.log ++ [EngineCall.zeros src_shape, EngineCall.zeros filter_shape]) := by
  rcases ImageBatch_ofNArray_cases src_shape with hsrc | ⟨src, rfl⟩
  · unfold Convolution.ConvForwardFindAlgorithm at h
    simp only [NArray.Zeros, Engine.fresh, hsrc, Convolution.rankFailed, Prod.mk.injEq,
      Except.error.injEq] at h
    obtain ⟨hf, he⟩ := h
    subst he
    refine ⟨rfl, Or.inl rfl, ?_⟩
    intro hc
    rw [← hf] at hc
    simp at hc
  · rcases Filter_ofNArray_cases filter_shape with hfil | ⟨filter, rfl⟩
    · unfold Convolution.ConvForwardFindAlgorithm at h
      simp only [NArray.Zeros, Engine.fresh, ImageBatch_ofNArray_fresh, hfil, Convolution.rankFailed,
        Prod.mk.injEq, Except.error.injEq] at h
      obtain ⟨hf, he⟩ := h
      subst he
      refine ⟨rfl, Or.inr (by simp), ?_⟩
      intro hc
      rw [← hf] at hc
      simp at hc
    · rw [ConvForwardFindAlgorithm_eq] at h
      split_ifs at h
      · rw [engine_of_checkFailed _ _ _ _ h]
        exact ⟨rfl, Or.inr rfl, fun _ => rfl⟩
      · rw [engine_of_divisionFailed _ _ _ h]
        exact ⟨rfl, Or.inr rfl, fun _ => rfl⟩
      · simp at h

/-- What a backward-filter profiling call that stops without a result has done,
for shapes of any rank: it created the first probe tensor, or both, and nothing
else; if it stopped at the batch check it created both. -/
theorem ConvBackwardFilterFindAlgorithm_rejected (top_shape bottom_shape filter_shape : Scale)
    (info : ConvInfo) (records : List AlgoProfResult) (eng eng' : Engine) (f : Fatal)
    (h : Convolution.ConvBackwardFilterFindAlgorithm top_shape bottom_shape filter_shape info
      records eng = (.error f, eng')) :
    eng'.containers = eng.containers
    ∧ (eng'.log = eng.log ++ [EngineCall.zeros top_shape]
      ∨ eng'.log = eng.log ++ [EngineCall.zeros top_shape, EngineCall.zeros bottom_shape])
    ∧ (f = Fatal.check "#images mismatch"
      → eng'.log = eng.log ++ [EngineCall.zeros top_shape, EngineCall.zeros bottom_shape]) := by
  rcases ImageBatch_ofNArray_cases top_shape with htop | ⟨top, rfl⟩
  · unfold Convolution.ConvBackwardFilterFindAlgorithm at h
    simp only [NArray.Zeros, Engine.fresh, htop, Convolution.rankFailed, Prod.mk.injEq,
      Except.error.injEq] at h
    obtain ⟨hf, he⟩ := h
    subst he
    refine ⟨rfl, Or.inl rfl, ?_⟩
    intro hc
    rw [← hf] at hc
    simp at hc
  · rcases ImageBatch_ofNArray_cases bottom_shape with hbot | ⟨bottom, rfl⟩
    · unfold Convolution.ConvBackwardFilterFindAlgorithm at h
      simp only [NArray.Zeros, Engine.fresh, ImageBatch_ofNArray_fresh, hbot,
        Convolution.rankFailed, Prod.mk.injEq, Except.error.injEq] at h
      obtain ⟨hf, he⟩ := h
      subst he
      refine ⟨rfl, Or.inr (by simp), ?_⟩
      intro hc
      rw [← hf] at hc
      simp at hc
    · rw [ConvBackwardFilterFindAlgorithm_eq] at h
      split_ifs at h
      · rw [engine_of_checkFailed _ _ _ _ h]
        exact ⟨rfl, Or.inr rfl, fun _ => rfl⟩
      · simp at h

/-- What a backward-data profiling call that stops without a result has done,
for shapes of any rank: it created the first probe tensor, or both, and nothing
else; if it stopped at the channel check it created both. -/
theorem ConvBackwardDataFindAlgorithm_rejected (top_shape bottom_shape filter_shape : Scale)
    (info : ConvInfo) (records : List AlgoProfResult) (eng eng' : Engine) (f : Fatal)
    (h : Convolution.ConvBackwardDataFindAlgorithm top_shape bottom_shape filter_shape info
      records eng = (.error f, eng')) :
    eng'.containers = eng.containers
    ∧ (eng'.log = eng.log ++ [EngineCall.zeros top_shape]
      ∨ eng'.log = eng.log ++ [EngineCall.zeros top_shape, EngineCall.zeros filter_shape])
    ∧ (f = Fatal.check "#output channels mismatch"
      → eng'.log = eng.log ++ [EngineCall.zeros top_shape, EngineCall.zeros filter_shape]) := by
  rcases ImageBatch_ofNArray_cases top_shape with htop | ⟨top, rfl⟩
  · unfold Convolution.ConvBackwardDataFindAlgorithm at h
    simp only [NArray.Zeros, Engine.fresh, htop, Convolution.rankFailed, Prod.mk.injEq,
      Except.error.injEq] at h
    obtain ⟨hf, he⟩ := h
    subst he
    refine ⟨rfl, Or.inl rfl, ?_⟩
    intro hc
    rw [← hf] at hc
    simp at hc
  · rcases Filter_ofNArray_cases filter_shape with hfil | ⟨filter, rfl⟩
    · unfold Convolution.ConvBackwardDataFindAlgorithm at h
      simp only [NArray.Zeros, Engine.fresh, ImageBatch_ofNArray_fresh, hfil,
        Convolution.rankFailed, Prod.mk.injEq, Except.error.injEq] at h
      obtain ⟨hf, he⟩ := h
      subst he
      refine ⟨rfl, Or.inr (by simp), ?_⟩
      intro hc
      rw [← hf] at hc
      simp at hc
    · rw [ConvBackwardDataFindAlgorithm_eq] at h
      split_ifs at h
      · rw [engine_of_checkFailed _ _ _ _ h]
        exact ⟨rfl, Or.inr rfl, fun _ => rfl⟩
      · simp at h

/-! ## Forward convolution -/

/-- C1, as stated, fails: with input width 1, pad 0, filter width 4 and stride 2
the call is accepted with output width 0, while the floor formula gives -1. -/
theorem convForward_width_not_floor :
    ∃ r eng',
      Convolution.ConvForward
          { id := 0, width := 1, height := 1, num_feature_maps := 1, num_images := 1 }
          { id := 1, width := 4, height := 4, num_inputs := 1, num_outputs := 1 }
          { id := 2, size := [1] }
          { pad_height := 0, pad_width := 0, stride_vertical := 2, stride_horizontal := 2,
            forward_algorithm := 0, backward_data_algorithm := 0,
            backward_filter_algorithm := 0 }
          { log := [], containers := [] } = (.ok r, eng')
      ∧ r.size = [0, 0, 1, 1]
      ∧ convOutputDimSpec 1 0 4 2 = -1
      ∧ r.size.index 0 ≠ convOutputDimSpec 1 0 4 2 := by
  have hspec : convOutputDimSpec 1 0 4 2 = -1 := by
    rw [convOutputDimSpec_eq 1 0 4 2 (by decide)]; decide
  refine ⟨_, _, rfl, rfl, hspec, ?_⟩
  rw [hspec]; decide

/-- C1, amended: for strides > 0 the output width of an accepted ConvForward call
is the quotient (inputWidth + 2*padWidth - filterWidth) / strideHorizontal
truncated toward zero, plus one; it equals the floor formula exactly when the
filter width is at most inputWidth + 2*padWidth or the stride divides
inputWidth + 2*padWidth - filterWidth.  The same holds for the height. -/
theorem convForward_output_dims (src : ImageBatch) (filter : Filter) (bias : NArray)
    (info : ConvInfo) (eng : Engine) (r : NArray) (eng' : Engine)
    (hsh : 0 < info.stride_horizontal) (hsv : 0 < info.stride_vertical)
    (h : Convolution.ConvForward src filter bias info eng = (.ok r, eng')) :
    (r.size.index 0
        = (src.GetWidth + 2 * info.pad_width - filter.GetWidth).tdiv info.stride_horizontal + 1
      ∧ (r.size.index 0
          = convOutputDimSpec src.GetWidth info.pad_width filter.GetWidth info.stride_horizontal
        ↔ (filter.GetWidth ≤ src.GetWidth + 2 * info.pad_width
          ∨ info.stride_horizontal ∣ src.GetWidth + 2 * info.pad_width - filter.GetWidth)))
    ∧ (r.size.index 1
        = (src.GetHeight + 2 * info.pad_height - filter.GetHeight).tdiv info.stride_vertical + 1
      ∧ (r.size.index 1
          = convOutputDimSpec src.GetHeight info.pad_height filter.GetHeight info.stride_vertical
        ↔ (filter.GetHeight ≤ src.GetHeight + 2 * info.pad_height
          ∨ info.stride_vertical ∣ src.GetHeight + 2 * info.pad_height - filter.GetHeight))) := by
  have hr := ConvForward_of_accepted src filter bias info eng r eng' h
  have key : ∀ n s : Int, 0 < s → (n.tdiv s + 1 = n / s + 1 ↔ (0 ≤ n ∨ s ∣ n)) := by
    intro n s hs
    rw [← tdiv_eq_ediv_iff n s hs]
    omega
  have h0 : r.size.index 0
      = (src.GetWidth + 2 * info.pad_width - filter.GetWidth).tdiv info.stride_horizontal + 1 := by
    rw [hr]; rfl
  have h1 : r.size.index 1
      = (src.GetHeight + 2 * info.pad_height - filter.GetHeight).tdiv info.stride_vertical + 1 := by
    rw [hr]; rfl
  refine ⟨⟨h0, ?_⟩, ⟨h1, ?_⟩⟩
  · rw [h0, convOutputDimSpec_eq _ _ _ _ hsh, key _ _ hsh]
    constructor <;> (rintro (hc | hc) <;> [(left; omega); (right; exact hc)])
  · rw [h1, convOutputDimSpec_eq _ _ _ _ hsv, key _ _ hsv]
    constructor <;> (rintro (hc | hc) <;> [(left; omega); (right; exact hc)])

/-- Scenario A: input (5, 5, 3, 2), filter (3, 3, 3, 4), bias of length 4, pad 0
and stride 1.  The filter fits, so the output width and height are the floor
formula, 3. -/
theorem convForward_output_dims_witness :
    Convolution.ConvForward
        { id := 0, width := 5, height := 5, num_feature_maps := 3, num_images := 2 }
        { id := 1, width := 3, height := 3, num_inputs := 3, num_outputs := 4 }
        { id := 2, size := [4] }
        { pad_height := 0, pad_width := 0, stride_vertical := 1, stride_horizontal := 1,
          forward_algorithm := 0, backward_data_algorithm := 0,
          backward_filter_algorithm := 0 }
        { log := [], containers := [] }
      = (.ok { id := 0, size := [3, 3, 4, 2] },
          { log := [EngineCall.submitNode
              [{ id := 0, size := [5, 5, 3, 2] }, { id := 1, size := [3, 3, 3, 4] },
                { id := 2, size := [4] }]
              [3, 3, 4, 2]
              (PhysicalOp.ConvForwardOp
                { pad_height := 0, pad_width := 0, stride_vertical := 1,
                  stride_horizontal := 1, algo := 0 })],
            containers := [] })
    ∧ (3 : Int) = convOutputDimSpec 5 0 3 1 :=
  ⟨rfl,
    ((convForward_output_dims
        { id := 0, width := 5, height := 5, num_feature_maps := 3, num_images := 2 }
        { id := 1, width := 3, height := 3, num_inputs := 3, num_outputs := 4 }
        { id := 2, size := [4] }
        { pad_height := 0, pad_width := 0, stride_vertical := 1, stride_horizontal := 1,
          forward_algorithm := 0, backward_data_algorithm := 0,
          backward_filter_algorithm := 0 }
        { log := [], containers := [] } _ _ (by decide) (by decide) rfl).1.2).2
      (Or.inl (by decide))⟩

/-- C3: with strides > 0, ConvForward produces a result handle if and only if
the input channel count equals the filter's input-channel count and the bias
shape has exactly one dimension, equal to the filter's output-channel count;
in every other case the call stops with a fatal condition, no handle is
produced and the engine is left untouched. -/
theorem convForward_accepts_iff (src : ImageBatch) (filter : Filter) (bias : NArray)
    (info : ConvInfo) (eng : Engine)
    (hsh : 0 < info.stride_horizontal) (hsv : 0 < info.stride_vertical) :
    ((∃ r eng', Convolution.ConvForward src filter bias info eng = (.ok r, eng'))
      ↔ (src.GetNumFeatureMaps = filter.GetNumInputs
          ∧ bias.Size.length = 1
          ∧ bias.Size = [filter.GetNumOutputs]))
    ∧ (¬ (src.GetNumFeatureMaps = filter.GetNumInputs
          ∧ bias.Size.length = 1
          ∧ bias.Size = [filter.GetNumOutputs])
        → ∃ f, Convolution.ConvForward src filter bias info eng = (.error f, eng)) := by
  have hdim : bias.Size.NumDims = 1 ↔ bias.Size.length = 1 := by
    unfold Scale.NumDims; omega
  have hidx : bias.Size.length = 1 →
      (bias.Size.index 0 = filter.GetNumOutputs ↔ bias.Size = [filter.GetNumOutputs]) := by
    intro hl
    match hb : bias.Size, hl with
    | [d], _ => simp [Scale.index]
  have hs : ¬ (info.stride_horizontal = 0 ∨ info.stride_vertical = 0) := by omega
  constructor
  · constructor
    · rintro ⟨r, eng', h⟩
      unfold Convolution.ConvForward at h
      split_ifs at h with h1 h2 h3
      all_goals first
        | (simp [checkFailed, divisionFailed] at h; done)
        | skip
      have h1' : src.GetNumFeatureMaps = filter.GetNumInputs := not_not.1 h1
      have h2' := hdim.1 (not_not.1 h2)
      exact ⟨h1', h2', (hidx h2').1 (not_not.1 h3)⟩
    · rintro ⟨h1, h2, h3⟩
      unfold Convolution.ConvForward
      rw [if_neg (not_not.2 h1), if_neg (not_not.2 (hdim.2 h2)),
        if_neg (not_not.2 ((hidx h2).2 h3)), if_neg hs]
      exact ⟨_, _, rfl⟩
  · intro hn
    unfold Convolution.ConvForward
    split_ifs with h1 h2 h3
    · exact ⟨_, rfl⟩
    · exact ⟨_, rfl⟩
    · exact ⟨_, rfl⟩
    · exfalso
      have h2' := hdim.1 (not_not.1 h2)
      exact hn ⟨not_not.1 h1, h2', (hidx h2').1 (not_not.1 h3)⟩

/-- An accepted and a rejected call: the call of scenario A returns a handle,
and the same call with a bias of two dimensions does not. -/
theorem convForward_accepts_iff_witness :
    (∃ r eng',
      Convolution.ConvForward
          { id := 0, width := 5, height := 5, num_feature_maps := 3, num_images := 2 }
          { id := 1, width := 3, height := 3, num_inputs := 3, num_outputs := 4 }
          { id := 2, size := [4] }
          { pad_height := 0, pad_width := 0, stride_vertical := 1, stride_horizontal := 1,
            forward_algorithm := 0, backward_data_algorithm := 0,
            backward_filter_algorithm := 0 }
          { log := [], containers := [] } = (.ok r, eng'))
    ∧ ∃ f,
      Convolution.ConvForward
          { id := 0, width := 5, height := 5, num_feature_maps := 3, num_images := 2 }
          { id := 1, width := 3, height := 3, num_inputs := 3, num_outputs := 4 }
          { id := 2, size := [4, 1] }
          { pad_height := 0, pad_width := 0, stride_vertical := 1, stride_horizontal := 1,
            forward_algorithm := 0, backward_data_algorithm := 0,
            backward_filter_algorithm := 0 }
          { log := [], containers := [] } = (.error f, { log := [], containers := [] }) :=
  ⟨(convForward_accepts_iff
      { id := 0, width := 5, height := 5, num_feature_maps := 3, num_images := 2 }
      { id := 1, width := 3, height := 3, num_inputs := 3, num_outputs := 4 }
      { id := 2, size := [4] }
      { pad_height := 0, pad_width := 0, stride_vertical := 1, stride_horizontal := 1,
        forward_algorithm := 0, backward_data_algorithm := 0,
        backward_filter_algorithm := 0 }
      { log := [], containers := [] } (by decide) (by decide)).1.2
      ⟨by decide, by decide, by decide⟩,
    (convForward_accepts_iff
      { id := 0, width := 5, height := 5, num_feature_maps := 3, num_images := 2 }
      { id := 1, width := 3, height := 3, num_inputs := 3, num_outputs := 4 }
      { id := 2, size := [4, 1] }
      { pad_height := 0, pad_width := 0, stride_vertical := 1, stride_horizontal := 1,
        forward_algorithm := 0, backward_data_algorithm := 0,
        backward_filter_algorithm := 0 }
      { log := [], containers := [] } (by decide) (by decide)).2
      (by decide)⟩

/-- C4: a ConvForward call whose input channel count differs from the filter's
input-channel count stops with the fatal check "#input channels mismatch",
whatever the bias and the ConvInfo are, not with one of the two bias checks,
and nothing is submitted to the engine: its call log is unchanged. -/
theorem convForward_channel_mismatch (src : ImageBatch) (filter : Filter) (bias : NArray)
    (info : ConvInfo) (eng : Engine)
    (h : src.GetNumFeatureMaps ≠ filter.GetNumInputs) :
    Convolution.ConvForward src filter bias info eng
        = (.error (Fatal.check "#input channels mismatch"), eng)
    ∧ (Convolution.ConvForward src filter bias info eng).1
        ≠ .error (Fatal.check "bias dimension mismatch")
    ∧ (Convolution.ConvForward src filter bias info eng).1
        ≠ .error (Fatal.check "bias size mismatch")
    ∧ (Convolution.ConvForward src filter bias info eng).2.log = eng.log := by
  have e : Convolution.ConvForward src filter bias info eng
      = (.error (Fatal.check "#input channels mismatch"), eng) := by
    unfold Convolution.ConvForward
    rw [if_pos h]
    rfl
  refine ⟨e, ?_, ?_, ?_⟩
  · rw [e]; simp
  · rw [e]; simp
  · rw [e]

/-- A channel mismatch that also has a bias of the wrong rank and a zero stride:
input with 3 channels, filter with 2 input channels, bias of shape (4, 1). -/
theorem convForward_channel_mismatch_witness :
    Convolution.ConvForward
        { id := 0, width := 5, height := 5, num_feature_maps := 3, num_images := 2 }
        { id := 1, width := 3, height := 3, num_inputs := 2, num_outputs := 4 }
        { id := 2, size := [4, 1] }
        { pad_height := 0, pad_width := 0, stride_vertical := 0, stride_horizontal := 0,
          forward_algorithm := 0, backward_data_algorithm := 0,
          backward_filter_algorithm := 0 }
        { log := [EngineCall.zeros [1]], containers := [] }
      = (.error (Fatal.check "#input channels mismatch"),
          { log := [EngineCall.zeros [1]], containers := [] }) :=
  (convForward_channel_mismatch
    { id := 0, width := 5, height := 5, num_feature_maps := 3, num_images := 2 }
    { id := 1, width := 3, height := 3, num_inputs := 2, num_outputs := 4 }
    { id := 2, size := [4, 1] }
    { pad_height := 0, pad_width := 0, stride_vertical := 0, stride_horizontal := 0,
      forward_algorithm := 0, backward_data_algorithm := 0,
      backward_filter_algorithm := 0 }
    { log := [EngineCall.zeros [1]], containers := [] } (by decide)).1

/-! ## Forward pooling -/

/-- C5, as stated, fails in two ways.  With input height 2, pad 0, window 6 and
stride 2 the integer expression of the code gives 0 (and PoolingForward
returns it, no correction applying), while the ceiling formula gives -1.  With
input height 2000000000, pad 100000000, window 2 and stride 2 the numerator
2199999999 does not fit the 32-bit `int`, and the code gives -1047483647
against 1100000000. -/
theorem pooledRaw32_not_ceil :
    pooledRaw32 2 0 6 2 = 0
    ∧ pooledRawSpec 2 0 6 2 = -1
    ∧ (∃ r eng',
        Convolution.PoolingForward32
            { id := 0, width := 2, height := 2, num_feature_maps := 1, num_images := 1 }
            { algorithm := 0, height := 6, width := 6, stride_vertical := 2,
              stride_horizontal := 2, pad_height := 0, pad_width := 0 }
            { log := [], containers := [] } = (.ok r, eng')
        ∧ r.size = [0, 0, 1, 1])
    ∧ pooledRaw32 2000000000 100000000 2 2 = -1047483647
    ∧ pooledRawSpec 2000000000 100000000 2 2 = 1100000000 := by
  have h1 : pooledRawSpec 2 0 6 2 = -1 := by
    rw [pooledRawSpec_eq 2 0 6 2 (by decide)]; decide
  have h2 : pooledRawSpec 2000000000 100000000 2 2 = 1100000000 := by
    rw [pooledRawSpec_eq 2000000000 100000000 2 2 (by decide)]; decide
  exact ⟨by decide, h1, ⟨_, _, rfl, rfl⟩, by decide, h2⟩

/-- C5, amended: for stride > 0, and as long as the `int` arithmetic does not
overflow (the exact values of inDim + 2*pad - window + stride - 1 and of the
result fit the 32-bit `int`), the uncorrected pooled dimension of the code,
(inDim + 2*pad - window + stride - 1) / stride + 1 with truncating division,
equals ceil((inDim + 2*pad - window) / stride) + 1 exactly when
window <= inDim + 2*pad + stride - 1 or the stride divides
inDim + 2*pad - window + stride - 1; otherwise it is one larger. -/
theorem pooledRaw32_eq_ceil_iff (inDim pad window stride : Int) (hs : 0 < stride)
    (hn : fitsInt (inDim + 2 * pad - window + stride - 1))
    (hr : fitsInt ((inDim + 2 * pad - window + stride - 1).tdiv stride + 1)) :
    (pooledRaw32 inDim pad window stride = pooledRawSpec inDim pad window stride
      ↔ (window ≤ inDim + 2 * pad + stride - 1
          ∨ stride ∣ inDim + 2 * pad - window + stride - 1))
    ∧ (¬ (window ≤ inDim + 2 * pad + stride - 1
          ∨ stride ∣ inDim + 2 * pad - window + stride - 1)
        → pooledRaw32 inDim pad window stride
            = pooledRawSpec inDim pad window stride + 1) := by
  rw [pooledRawSpec_eq inDim pad window stride hs,
    pooledRaw32_eq inDim pad window stride hs hn hr]
  constructor
  · have key := tdiv_eq_ediv_iff (inDim + 2 * pad - window + stride - 1) stride hs
    constructor
    · intro h
      rcases key.1 (by omega) with hc | hc
      · left; omega
      · right; exact hc
    · rintro (hc | hc)
      · rw [key.2 (Or.inl (by omega))]
      · rw [key.2 (Or.inr hc)]
  · intro hc
    push_neg at hc
    rw [tdiv_eq_ediv_add_one _ _ hs (by omega) hc.2]

/-- The window 2 fits the input 4 and nothing overflows: the code's expression
and the ceiling formula agree, both giving 2. -/
theorem pooledRaw32_eq_ceil_iff_witness :
    pooledRaw32 4 0 2 2 = pooledRawSpec 4 0 2 2 ∧ pooledRaw32 4 0 2 2 = 2 :=
  ⟨((pooledRaw32_eq_ceil_iff 4 0 2 2 (by decide) (by decide) (by decide)).1).2
      (Or.inl (by decide)),
    by decide⟩

/-- C6, as stated, fails: with input height and width 4, pad 3, window 2 and
stride 1 the call returns the pooled dimensions 8, and the overlap condition
(8 - 1) * 1 - 4 - 3 >= 0 still holds for them. -/
theorem poolingForward_still_overlaps :
    ∃ r eng',
      Convolution.PoolingForward
          { id := 0, width := 4, height := 4, num_feature_maps := 1, num_images := 1 }
          { algorithm := 0, height := 2, width := 2, stride_vertical := 1,
            stride_horizontal := 1, pad_height := 3, pad_width := 3 }
          { log := [], containers := [] } = (.ok r, eng')
      ∧ r.size = [8, 8, 1, 1]
      ∧ pooledDim 4 3 2 1 = 8
      ∧ ¬ ((pooledDim 4 3 2 1 - 1) * 1 - 4 - 3 < 0) :=
  ⟨_, _, rfl, rfl, by decide, by decide⟩

/-- C6, amended: for every non-negative input dimension and pad, every stride
>= 1 and every window that is at least the pad, PoolingForward returns pooled
dimensions p that no longer satisfy the overlap condition:
(p - 1) * stride - inDim - pad < 0, for the height and for the width. -/
theorem poolingForward_no_overlap (src : ImageBatch) (info : PoolingInfo) (eng : Engine)
    (hh : 0 ≤ src.GetHeight) (hw : 0 ≤ src.GetWidth)
    (hph : 0 ≤ info.pad_height) (hpw : 0 ≤ info.pad_width)
    (hsv : 1 ≤ info.stride_vertical) (hsh : 1 ≤ info.stride_horizontal)
    (hwh : info.pad_height ≤ info.height) (hww : info.pad_width ≤ info.width) :
    ∃ pooled_height pooled_width r eng',
      Convolution.PoolingForward src info eng = (.ok r, eng')
      ∧ r.size = [pooled_height, pooled_width, src.GetNumFeatureMaps, src.GetNumImages]
      ∧ (pooled_height - 1) * info.stride_vertical - src.GetHeight - info.pad_height < 0
      ∧ (pooled_width - 1) * info.stride_horizontal - src.GetWidth - info.pad_width < 0 := by
  have hs : ¬ (info.stride_vertical = 0 ∨ info.stride_horizontal = 0) := by omega
  have h1 := pooledDim_not_overlaps src.GetHeight info.pad_height info.height
    info.stride_vertical hh hph (by omega) hwh
  have h2 := pooledDim_not_overlaps src.GetWidth info.pad_width info.width
    info.stride_horizontal hw hpw (by omega) hww
  unfold overlaps at h1 h2
  exact ⟨_, _, _, _, PoolingForward_eq src info eng hs, rfl, not_le.1 h1, not_le.1 h2⟩

/-- Input 4 by 4, window 2, pad 2 and stride 1: the raw pooled dimension is 7,
the correction lowers it to 6, and (6 - 1) * 1 - 4 - 2 < 0. -/
theorem poolingForward_no_overlap_witness :
    ∃ pooled_height pooled_width r eng',
      Convolution.PoolingForward
          { id := 0, width := 4, height := 4, num_feature_maps := 1, num_images := 1 }
          { algorithm := 0, height := 2, width := 2, stride_vertical := 1,
            stride_horizontal := 1, pad_height := 2, pad_width := 2 }
          { log := [], containers := [] } = (.ok r, eng')
      ∧ r.size = [pooled_height, pooled_width, 1, 1]
      ∧ (pooled_height - 1) * 1 - 4 - 2 < 0
      ∧ (pooled_width - 1) * 1 - 4 - 2 < 0 :=
  poolingForward_no_overlap
    { id := 0, width := 4, height := 4, num_feature_maps := 1, num_images := 1 }
    { algorithm := 0, height := 2, width := 2, stride_vertical := 1,
      stride_horizontal := 1, pad_height := 2, pad_width := 2 }
    { log := [], containers := [] }
    (by decide) (by decide) (by decide) (by decide) (by decide) (by decide)
    (by decide) (by decide)

/-- C7: with input height 4, pad 0 and vertical stride 2, PoolingForward yields
the pooled height 2 for window height 2 (scenario B) and for window height 3
(scenario C): the raw formula gives 2 and the overlap condition, evaluated on
that raw value, is false, so nothing is decremented. -/
theorem poolingForward_scenarios (src : ImageBatch) (info : PoolingInfo) (eng : Engine)
    (hh : src.GetHeight = 4) (hp : info.pad_height = 0) (hsv : info.stride_vertical = 2)
    (hsh : info.stride_horizontal ≠ 0) (hwin : info.height = 2 ∨ info.height = 3) :
    pooledRaw src.GetHeight info.pad_height info.height info.stride_vertical = 2
    ∧ ¬ overlaps (pooledRaw src.GetHeight info.pad_height info.height info.stride_vertical)
        src.GetHeight info.pad_height info.stride_vertical
    ∧ ∃ pooled_width r eng',
        Convolution.PoolingForward src info eng = (.ok r, eng')
        ∧ r.size = [2, pooled_width, src.GetNumFeatureMaps, src.GetNumImages] := by
  have hs : ¬ (info.stride_vertical = 0 ∨ info.stride_horizontal = 0) := by omega
  have hraw : pooledRaw src.GetHeight info.pad_height info.height info.stride_vertical = 2 := by
    rw [hh, hp, hsv]
    rcases hwin with h | h <;> rw [h] <;> decide
  have hno : ¬ overlaps (pooledRaw src.GetHeight info.pad_height info.height
      info.stride_vertical) src.GetHeight info.pad_height info.stride_vertical := by
    rw [hraw, hh, hp, hsv]; decide
  have hdim : pooledDim src.GetHeight info.pad_height info.height info.stride_vertical = 2 := by
    unfold pooledDim
    rw [if_neg hno, hraw]
  refine ⟨hraw, hno,
    pooledDim src.GetWidth info.pad_width info.width info.stride_horizontal, _, _,
    PoolingForward_eq src info eng hs, ?_⟩
  simp only [Engine.fresh]
  rw [hdim]

/-- Scenarios B and C on an input of shape (4, 4, 1, 1) with stride 2 and pad 0:
the window 2 by 2 and the window 3 by 3 both give the output shape (2, 2, 1, 1). -/
theorem poolingForward_scenarios_witness :
    (∃ pooled_width r eng',
        Convolution.PoolingForward
            { id := 0, width := 4, height := 4, num_feature_maps := 1, num_images := 1 }
            { algorithm := 0, height := 2, width := 2, stride_vertical := 2,
              stride_horizontal := 2, pad_height := 0, pad_width := 0 }
            { log := [], containers := [] } = (.ok r, eng')
        ∧ r.size = [2, pooled_width, 1, 1])
    ∧ (∃ pooled_width r eng',
        Convolution.PoolingForward
            { id := 0, width := 4, height := 4, num_feature_maps := 1, num_images := 1 }
            { algorithm := 0, height := 3, width := 3, stride_vertical := 2,
              stride_horizontal := 2, pad_height := 0, pad_width := 0 }
            { log := [], containers := [] } = (.ok r, eng')
        ∧ r.size = [2, pooled_width, 1, 1]) :=
  ⟨(poolingForward_scenarios
      { id := 0, width := 4, height := 4, num_feature_maps := 1, num_images := 1 }
      { algorithm := 0, height := 2, width := 2, stride_vertical := 2,
        stride_horizontal := 2, pad_height := 0, pad_width := 0 }
      { log := [], containers := [] } rfl rfl rfl (by decide) (Or.inl rfl)).2.2,
    (poolingForward_scenarios
      { id := 0, width := 4, height := 4, num_feature_maps := 1, num_images := 1 }
      { algorithm := 0, height := 3, width := 3, stride_vertical := 2,
        stride_horizontal := 2, pad_height := 0, pad_width := 0 }
      { log := [], containers := [] } rfl rfl rfl (by decide) (Or.inr rfl)).2.2⟩

/-! ## Backward pooling -/

/-- C9: the result of every accepted call of a shape-preserving operator has the
shape of the named operand: ConvBackwardData the shape of bottom,
ConvBackwardFilter the shape of filter, ConvBackwardBias the one-dimensional
shape of diff's channel count, SoftmaxForward, ActivationForward and
LrnForward the shape of src, SoftmaxBackward and ActivationBackward the shape
of diff, LrnBackward the shape of top.  The four operators without a check
accept every call. -/
theorem shape_preserving_outputs :
    (∀ (diff bottom : ImageBatch) (filter : Filter) (info : ConvInfo) (eng : Engine)
        (r : NArray) (eng' : Engine),
        Convolution.ConvBackwardData diff bottom filter info eng = (.ok r, eng')
          → r.size = bottom.Size)
    ∧ (∀ (diff bottom : ImageBatch) (filter : Filter) (info : ConvInfo) (eng : Engine)
        (r : NArray) (eng' : Engine),
        Convolution.ConvBackwardFilter diff bottom filter info eng = (.ok r, eng')
          → r.size = filter.Size)
    ∧ (∀ (diff : ImageBatch) (eng : Engine),
        ∃ r eng', Convolution.ConvBackwardBias diff eng = (.ok r, eng')
          ∧ r.size = [diff.GetNumFeatureMaps])
    ∧ (∀ (src : ImageBatch) (algorithm : Nat) (eng : Engine),
        ∃ r eng', Convolution.SoftmaxForward src algorithm eng = (.ok r, eng')
          ∧ r.size = src.Size)
    ∧ (∀ (diff top : ImageBatch) (algorithm : Nat) (eng : Engine)
        (r : NArray) (eng' : Engine),
        Convolution.SoftmaxBackward diff top algorithm eng = (.ok r, eng')
          → r.size = diff.Size)
    ∧ (∀ (src : ImageBatch) (algorithm : Nat) (eng : Engine),
        ∃ r eng', Convolution.ActivationForward src algorithm eng = (.ok r, eng')
          ∧ r.size = src.Size)
    ∧ (∀ (diff top bottom : ImageBatch) (algorithm : Nat) (eng : Engine)
        (r : NArray) (eng' : Engine),
        Convolution.ActivationBackward diff top bottom algorithm eng = (.ok r, eng')
          → r.size = diff.Size)
    ∧ (∀ (src : ImageBatch) (local_size : Int) (alpha beta k : Nat) (eng : Engine),
        ∃ r eng', Convolution.LrnForward src local_size alpha beta k eng = (.ok r, eng')
          ∧ r.size = src.Size)
    ∧ (∀ (top top_diff bottom : ImageBatch) (local_size : Int) (alpha beta k : Nat)
        (eng : Engine) (r : NArray) (eng' : Engine),
        Convolution.LrnBackward top top_diff bottom local_size alpha beta k eng = (.ok r, eng')
          → r.size = top.Size) := by
  refine ⟨?_, ?_, ?_, ?_, ?_, ?_, ?_, ?_, ?_⟩
  · intro diff bottom filter info eng r eng' h
    unfold Convolution.ConvBackwardData at h
    split_ifs at h
    · exact absurd h (by simp [checkFailed])
    · simp only [NArray.ComputeOne, Prod.mk.injEq, Except.ok.injEq] at h
      rw [← h.1]; rfl
  · intro diff bottom filter info eng r eng' h
    unfold Convolution.ConvBackwardFilter at h
    split_ifs at h
    · exact absurd h (by simp [checkFailed])
    · simp only [NArray.ComputeOne, Prod.mk.injEq, Except.ok.injEq] at h
      rw [← h.1]; rfl
  · intro diff eng
    exact ⟨_, _, rfl, rfl⟩
  · intro src algorithm eng
    exact ⟨_, _, rfl, rfl⟩
  · intro diff top algorithm eng r eng' h
    unfold Convolution.SoftmaxBackward at h
    split_ifs at h
    · exact absurd h (by simp [checkFailed])
    · simp only [NArray.ComputeOne, Prod.mk.injEq, Except.ok.injEq] at h
      rw [← h.1]; rfl
  · intro src algorithm eng
    exact ⟨_, _, rfl, rfl⟩
  · intro diff top bottom algorithm eng r eng' h
    unfold Convolution.ActivationBackward at h
    split_ifs at h
    · exact absurd h (by simp [checkFailed])
    · exact absurd h (by simp [checkFailed])
    · simp only [NArray.ComputeOne, Prod.mk.injEq, Except.ok.injEq] at h
      rw [← h.1]; rfl
  · intro src local_size alpha beta k eng
    exact ⟨_, _, rfl, rfl⟩
  · intro top top_diff bottom local_size alpha beta k eng r eng' h
    unfold Convolution.LrnBackward at h
    split_ifs at h
    · exact absurd h (by simp [checkFailed])
    · exact absurd h (by simp [checkFailed])
    · simp only [NArray.ComputeOne, Prod.mk.injEq, Except.ok.injEq] at h
      rw [← h.1]; rfl

/-- Accepted calls of the checked operators: a backward-data call returns the
shape (7, 6, 3, 2) of bottom, a backward-filter call the shape (3, 3, 3, 4) of
the filter, and the softmax, activation and LRN backward calls the shape
(5, 5, 4, 2) of their first operand. -/
theorem shape_preserving_outputs_witness :
    (∃ r eng',
      Convolution.ConvBackwardData
          { id := 0, width := 5, height := 5, num_feature_maps := 4, num_images := 2 }
          { id := 1, width := 7, height := 6, num_feature_maps := 3, num_images := 2 }
          { id := 2, width := 3, height := 3, num_inputs := 3, num_outputs := 4 }
          { pad_height := 0, pad_width := 0, stride_vertical := 1, stride_horizontal := 1,
            forward_algorithm := 0, backward_data_algorithm := 0,
            backward_filter_algorithm := 0 }
          { log := [], containers := [] } = (.ok r, eng')
      ∧ r.size = [7, 6, 3, 2])
    ∧ (∃ r eng',
      Convolution.ConvBackwardFilter
          { id := 0, width := 5, height := 5, num_feature_maps := 4, num_images := 2 }
          { id := 1, width := 7, height := 6, num_feature_maps := 3, num_images := 2 }
          { id := 2, width := 3, height := 3, num_inputs := 3, num_outputs := 4 }
          { pad_height := 0, pad_width := 0, stride_vertical := 1, stride_horizontal := 1,
            forward_algorithm := 0, backward_data_algorithm := 0,
            backward_filter_algorithm := 0 }
          { log := [], containers := [] } = (.ok r, eng')
      ∧ r.size = [3, 3, 3, 4])
    ∧ (∃ r eng',
      Convolution.SoftmaxBackward
          { id := 0, width := 5, height := 5, num_feature_maps := 4, num_images := 2 }
          { id := 1, width := 5, height := 5, num_feature_maps := 4, num_images := 2 }
          0 { log := [], containers := [] } = (.ok r, eng')
      ∧ r.size = [5, 5, 4, 2])
    ∧ (∃ r eng',
      Convolution.ActivationBackward
          { id := 0, width := 5, height := 5, num_feature_maps := 4, num_images := 2 }
          { id := 1, width := 5, height := 5, num_feature_maps := 4, num_images := 2 }
          { id := 2, width := 5, height := 5, num_feature_maps := 4, num_images := 2 }
          0 { log := [], containers := [] } = (.ok r, eng')
      ∧ r.size = [5, 5, 4, 2])
    ∧ (∃ r eng',
      Convolution.LrnBackward
          { id := 0, width := 5, height := 5, num_feature_maps := 4, num_images := 2 }
          { id := 1, width := 5, height := 5, num_feature_maps := 4, num_images := 2 }
          { id := 2, width := 5, height := 5, num_feature_maps := 4, num_images := 2 }
          5 0 0 0 { log := [], containers := [] } = (.ok r, eng')
      ∧ r.size = [5, 5, 4, 2]) :=
  ⟨⟨_, _, rfl, shape_preserving_outputs.1
      { id := 0, width := 5, height := 5, num_feature_maps := 4, num_images := 2 }
      { id := 1, width := 7, height := 6, num_feature_maps := 3, num_images := 2 }
      { id := 2, width := 3, height := 3, num_inputs := 3, num_outputs := 4 }
      { pad_height := 0, pad_width := 0, stride_vertical := 1, stride_horizontal := 1,
        forward_algorithm := 0, backward_data_algorithm := 0,
        backward_filter_algorithm := 0 }
      { log := [], containers := [] } _ _ rfl⟩,
    ⟨_, _, rfl, shape_preserving_outputs.2.1
      { id := 0, width := 5, height := 5, num_feature_maps := 4, num_images := 2 }
      { id := 1, width := 7, height := 6, num_feature_maps := 3, num_images := 2 }
      { id := 2, width := 3, height := 3, num_inputs := 3, num_outputs := 4 }
      { pad_height := 0, pad_width := 0, stride_vertical := 1, stride_horizontal := 1,
        forward_algorithm := 0, backward_data_algorithm := 0,
        backward_filter_algorithm := 0 }
      { log := [], containers := [] } _ _ rfl⟩,
    ⟨_, _, rfl, shape_preserving_outputs.2.2.2.2.1
      { id := 0, width := 5, height := 5, num_feature_maps := 4, num_images := 2 }
      { id := 1, width := 5, height := 5, num_feature_maps := 4, num_images := 2 }
      0 { log := [], containers := [] } _ _ rfl⟩,
    ⟨_, _, rfl, shape_preserving_outputs.2.2.2.2.2.2.1
      { id := 0, width := 5, height := 5, num_feature_maps := 4, num_images := 2 }
      { id := 1, width := 5, height := 5, num_feature_maps := 4, num_images := 2 }
      { id := 2, width := 5, height := 5, num_feature_maps := 4, num_images := 2 }
      0 { log := [], containers := [] } _ _ rfl⟩,
    ⟨_, _, rfl, shape_preserving_outputs.2.2.2.2.2.2.2.2
      { id := 0, width := 5, height := 5, num_feature_maps := 4, num_images := 2 }
      { id := 1, width := 5, height := 5, num_feature_maps := 4, num_images := 2 }
      { id := 2, width := 5, height := 5, num_feature_maps := 4, num_images := 2 }
      5 0 0 0 { log := [], containers := [] } _ _ rfl⟩⟩

/-! ## Backward convolution -/

/-- C10: ConvBackwardData produces a result handle if and only if the channel
count of diff equals the output-channel count of the filter, and
ConvBackwardFilter if and only if diff and bottom have equal batch counts;
nothing else about diff, bottom, filter, the ConvInfo or the engine enters.
In particular a backward-data call is accepted although the channel count of
bottom differs from the input-channel count of the filter. -/
theorem convBackward_accepts_iff (diff bottom : ImageBatch) (filter : Filter)
    (info : ConvInfo) (eng : Engine) :
    ((∃ r eng', Convolution.ConvBackwardData diff bottom filter info eng = (.ok r, eng'))
      ↔ diff.GetNumFeatureMaps = filter.GetNumOutputs)
    ∧ ((∃ r eng', Convolution.ConvBackwardFilter diff bottom filter info eng = (.ok r, eng'))
      ↔ diff.GetNumImages = bottom.GetNumImages)
    ∧ (∃ r eng',
        Convolution.ConvBackwardData
          { id := 0, width := 3, height := 3, num_feature_maps := 4, num_images := 2 }
          { id := 1, width := 5, height := 5, num_feature_maps := 7, num_images := 9 }
          { id := 2, width := 3, height := 3, num_inputs := 3, num_outputs := 4 }
          info eng = (.ok r, eng')) := by
  refine ⟨⟨?_, ?_⟩, ⟨?_, ?_⟩, ?_⟩
  · rintro ⟨r, eng', h⟩
    unfold Convolution.ConvBackwardData at h
    split_ifs at h with h1
    · exact absurd h (by simp [checkFailed])
    · exact not_not.1 h1
  · intro h1
    unfold Convolution.ConvBackwardData
    rw [if_neg (not_not.2 h1)]
    exact ⟨_, _, rfl⟩
  · rintro ⟨r, eng', h⟩
    unfold Convolution.ConvBackwardFilter at h
    split_ifs at h with h1
    · exact absurd h (by simp [checkFailed])
    · exact not_not.1 h1
  · intro h1
    unfold Convolution.ConvBackwardFilter
    rw [if_neg (not_not.2 h1)]
    exact ⟨_, _, rfl⟩
  · exact ⟨_, _, rfl⟩

/-! ## Backward operators on operands of one shape -/

/-- C11: SoftmaxBackward, ActivationBackward and LrnBackward produce a result
handle if and only if all operand shapes are pairwise equal, where two shapes
are equal when they agree dimension by dimension.  For the three-operand
operators this includes the pair the code does not compare directly (top with
bottom for ActivationBackward, top_diff with bottom for LrnBackward). -/
theorem backward_same_shape_iff (diff top bottom top_diff : ImageBatch) (algorithm : Nat)
    (local_size : Int) (alpha beta k : Nat) (eng : Engine) :
    ((∃ r eng', Convolution.SoftmaxBackward diff top algorithm eng = (.ok r, eng'))
      ↔ diff.Size = top.Size)
    ∧ ((∃ r eng', Convolution.ActivationBackward diff top bottom algorithm eng = (.ok r, eng'))
      ↔ (diff.Size = top.Size ∧ diff.Size = bottom.Size ∧ top.Size = bottom.Size))
    ∧ ((∃ r eng',
          Convolution.LrnBackward top top_diff bottom local_size alpha beta k eng
            = (.ok r, eng'))
      ↔ (top.Size = top_diff.Size ∧ top.Size = bottom.Size ∧ top_diff.Size = bottom.Size))
    ∧ (diff.Size = top.Size
      ↔ (diff.GetWidth = top.GetWidth ∧ diff.GetHeight = top.GetHeight
          ∧ diff.GetNumFeatureMaps = top.GetNumFeatureMaps
          ∧ diff.GetNumImages = top.GetNumImages)) := by
  refine ⟨⟨?_, ?_⟩, ⟨?_, ?_⟩, ⟨?_, ?_⟩, ?_⟩
  · rintro ⟨r, eng', h⟩
    unfold Convolution.SoftmaxBackward at h
    split_ifs at h with h1
    · exact absurd h (by simp [checkFailed])
    · exact not_not.1 h1
  · intro h1
    unfold Convolution.SoftmaxBackward
    rw [if_neg (not_not.2 h1)]
    exact ⟨_, _, rfl⟩
  · rintro ⟨r, eng', h⟩
    unfold Convolution.ActivationBackward at h
    split_ifs at h with h1 h2
    · exact absurd h (by simp [checkFailed])
    · exact absurd h (by simp [checkFailed])
    · have e1 := not_not.1 h1
      have e2 := not_not.1 h2
      exact ⟨e1, e2, e1.symm.trans e2⟩
  · rintro ⟨h1, h2, _⟩
    unfold Convolution.ActivationBackward
    rw [if_neg (not_not.2 h1), if_neg (not_not.2 h2)]
    exact ⟨_, _, rfl⟩
  · rintro ⟨r, eng', h⟩
    unfold Convolution.LrnBackward at h
    split_ifs at h with h1 h2
    · exact absurd h (by simp [checkFailed])
    · exact absurd h (by simp [checkFailed])
    · have e1 := not_not.1 h1
      have e2 := not_not.1 h2
      exact ⟨e1, e2, e1.symm.trans e2⟩
  · rintro ⟨h1, h2, _⟩
    unfold Convolution.LrnBackward
    rw [if_neg (not_not.2 h1), if_neg (not_not.2 h2)]
    exact ⟨_, _, rfl⟩
  · simp [ImageBatch.Size, ImageBatch.GetWidth, ImageBatch.GetHeight,
      ImageBatch.GetNumFeatureMaps, ImageBatch.GetNumImages]

/-! ## Algorithm profiling -/

/-- C12: on the shapes of image batches and filters, each find-algorithm operator
applies the check of its non-profiling counterpart.  The channel check
"#input channels mismatch" passes in ConvForwardFindAlgorithm exactly when it
passes in ConvForward, namely when src channels = filter inputs;
ConvBackwardFilterFindAlgorithm is accepted exactly when ConvBackwardFilter is,
namely when top batch = bottom batch; ConvBackwardDataFindAlgorithm is accepted
exactly when ConvBackwardData is, namely when top channels = filter outputs. -/
theorem findAlgorithm_same_checks (src top bottom : ImageBatch) (filter : Filter)
    (bias : NArray) (bottom_shape filter_shape : Scale) (info : ConvInfo)
    (records : List AlgoProfResult) (eng : Engine) :
    (((Convolution.ConvForwardFindAlgorithm src.Size filter.Size info records eng).1
          ≠ .error (Fatal.check "#input channels mismatch")
        ↔ src.GetNumFeatureMaps = filter.GetNumInputs)
      ∧ ((Convolution.ConvForward src filter bias info eng).1
          ≠ .error (Fatal.check "#input channels mismatch")
        ↔ src.GetNumFeatureMaps = filter.GetNumInputs))
    ∧ (((∃ r eng',
          Convolution.ConvBackwardFilterFindAlgorithm top.Size bottom.Size filter_shape info
            records eng = (.ok r, eng'))
        ↔ top.GetNumImages = bottom.GetNumImages)
      ∧ ((∃ r eng',
          Convolution.ConvBackwardFilter top bottom filter info eng = (.ok r, eng'))
        ↔ top.GetNumImages = bottom.GetNumImages))
    ∧ (((∃ r eng',
          Convolution.ConvBackwardDataFindAlgorithm top.Size bottom_shape filter.Size info
            records eng = (.ok r, eng'))
        ↔ top.GetNumFeatureMaps = filter.GetNumOutputs)
      ∧ ((∃ r eng',
          Convolution.ConvBackwardData top bottom filter info eng = (.ok r, eng'))
        ↔ top.GetNumFeatureMaps = filter.GetNumOutputs)) := by
  refine ⟨⟨?_, ?_⟩, ⟨?_, ?_⟩, ⟨?_, ?_⟩⟩
  · rw [ConvForwardFindAlgorithm_eq]
    split_ifs with h1 h2
    · simp [checkFailed, h1]
    · simp [divisionFailed, not_not.1 h1]
    · simp [not_not.1 h1]
  · unfold Convolution.ConvForward
    split_ifs with h1 h2 h3 h4
    · simp [checkFailed, h1]
    · simp [checkFailed, not_not.1 h1]
    · simp [checkFailed, not_not.1 h1]
    · simp [divisionFailed, not_not.1 h1]
    · simp [NArray.ComputeOne, not_not.1 h1]
  · rw [ConvBackwardFilterFindAlgorithm_eq]
    split_ifs with h1
    · simp [checkFailed, h1]
    · simp [not_not.1 h1]
  · unfold Convolution.ConvBackwardFilter
    split_ifs with h1
    · simp [checkFailed, h1]
    · simp [NArray.ComputeOne, not_not.1 h1]
  · rw [ConvBackwardDataFindAlgorithm_eq]
    split_ifs with h1
    · simp [checkFailed, h1]
    · simp [not_not.1 h1]
  · unfold Convolution.ConvBackwardData
    split_ifs with h1
    · simp [checkFailed, h1]
    · simp [NArray.ComputeOne, not_not.1 h1]

/-- C13, as stated, fails for the find-algorithm operators: a forward profiling
call with 3 input channels against a filter with 2 is rejected by the channel
check after the two probe tensors were created, so the log of the engine has
two new entries. -/
theorem findAlgorithm_rejected_after_probes :
    Convolution.ConvForwardFindAlgorithm [5, 5, 3, 2] [3, 3, 2, 4]
        { pad_height := 0, pad_width := 0, stride_vertical := 1, stride_horizontal := 1,
          forward_algorithm := 0, backward_data_algorithm := 0,
          backward_filter_algorithm := 0 }
        [] { log := [], containers := [] }
      = (.error (Fatal.check "#input channels mismatch"),
          { log := [EngineCall.zeros [5, 5, 3, 2], EngineCall.zeros [3, 3, 2, 4]],
            containers := [] })
    ∧ [EngineCall.zeros [5, 5, 3, 2], EngineCall.zeros [3, 3, 2, 4]]
        ≠ ([] : List EngineCall) :=
  ⟨rfl, by simp⟩

/-- C13, amended: a call of a non-profiling operator that stops without a result
has invoked no operation of the engine: the engine state, and with it the call
log, is the one before the call.  A call of a find-algorithm operator that
stops without a result, on shapes of any rank, has created its first probe
tensor, or both probe tensors in order, and nothing else: no node is
submitted, nothing is waited for and no results container is created.
Whenever it is the channel or batch check of the operator that fails, both
probe tensors have been created: the log is the log before the call followed
by the two zeros entries. -/
theorem rejected_calls_engine (eng eng' : Engine) (f : Fatal) :
    (∀ (src : ImageBatch) (filter : Filter) (bias : NArray) (info : ConvInfo),
        Convolution.ConvForward src filter bias info eng = (.error f, eng') → eng' = eng)
    ∧ (∀ (diff bottom : ImageBatch) (filter : Filter) (info : ConvInfo),
        Convolution.ConvBackwardData diff bottom filter info eng = (.error f, eng')
          → eng' = eng)
    ∧ (∀ (diff bottom : ImageBatch) (filter : Filter) (info : ConvInfo),
        Convolution.ConvBackwardFilter diff bottom filter info eng = (.error f, eng')
          → eng' = eng)
    ∧ (∀ (diff top : ImageBatch) (algorithm : Nat),
        Convolution.SoftmaxBackward diff top algorithm eng = (.error f, eng') → eng' = eng)
    ∧ (∀ (diff top bottom : ImageBatch) (algorithm : Nat),
        Convolution.ActivationBackward diff top bottom algorithm eng = (.error f, eng')
          → eng' = eng)
    ∧ (∀ (src : ImageBatch) (info : PoolingInfo),
        Convolution.PoolingForward src info eng = (.error f, eng') → eng' = eng)
    ∧ (∀ (diff top bottom : ImageBatch) (info : PoolingInfo),
        Convolution.PoolingBackward diff top bottom info eng = (.error f, eng') → eng' = eng)
    ∧ (∀ (top top_diff bottom : ImageBatch) (local_size : Int) (alpha beta k : Nat),
        Convolution.LrnBackward top top_diff bottom local_size alpha beta k eng
            = (.error f, eng')
          → eng' = eng)
    ∧ (∀ (src_shape filter_shape : Scale) (info : ConvInfo)
        (records : List AlgoProfResult),
        Convolution.ConvForwardFindAlgorithm src_shape filter_shape info records eng
            = (.error f, eng')
          → eng'.containers = eng.containers
            ∧ (eng'.log = eng.log ++ [EngineCall.zeros src_shape]
              ∨ eng'.log
                = eng.log ++ [EngineCall.zeros src_shape, EngineCall.zeros filter_shape])
            ∧ (f = Fatal.check "#input channels mismatch"
              → eng'.log
                = eng.log ++ [EngineCall.zeros src_shape, EngineCall.zeros filter_shape]))
    ∧ (∀ (top_shape bottom_shape filter_shape : Scale) (info : ConvInfo)
        (records : List AlgoProfResult),
        Convolution.ConvBackwardFilterFindAlgorithm top_shape bottom_shape filter_shape info
            records eng = (.error f, eng')
          → eng'.containers = eng.containers
            ∧ (eng'.log = eng.log ++ [EngineCall.zeros top_shape]
              ∨ eng'.log
                = eng.log ++ [EngineCall.zeros top_shape, EngineCall.zeros bottom_shape])
            ∧ (f = Fatal.check "#images mismatch"
              → eng'.log
                = eng.log ++ [EngineCall.zeros top_shape, EngineCall.zeros bottom_shape]))
    ∧ (∀ (top_shape bottom_shape filter_shape : Scale) (info : ConvInfo)
        (records : List AlgoProfResult),
        Convolution.ConvBackwardDataFindAlgorithm top_shape bottom_shape filter_shape info
            records eng = (.error f, eng')
          → eng'.containers = eng.containers
            ∧ (eng'.log = eng.log ++ [EngineCall.zeros top_shape]
              ∨ eng'.log
                = eng.log ++ [EngineCall.zeros top_shape, EngineCall.zeros filter_shape])
            ∧ (f = Fatal.check "#output channels mismatch"
              → eng'.log
                = eng.log ++ [EngineCall.zeros top_shape, EngineCall.zeros filter_shape])) := by
  refine ⟨?_, ?_, ?_, ?_, ?_, ?_, ?_, ?_, ?_, ?_, ?_⟩
  · intro src filter bias info h
    unfold Convolution.ConvForward at h
    split_ifs at h
    all_goals first
      | exact engine_of_checkFailed _ _ _ _ h
      | exact engine_of_divisionFailed _ _ _ h
      | exact absurd h (ComputeOne_ne_error _ _ _ _ _ _)
  · intro diff bottom filter info h
    unfold Convolution.ConvBackwardData at h
    split_ifs at h
    all_goals first
      | exact engine_of_checkFailed _ _ _ _ h
      | exact absurd h (ComputeOne_ne_error _ _ _ _ _ _)
  · intro diff bottom filter info h
    unfold Convolution.ConvBackwardFilter at h
    split_ifs at h
    all_goals first
      | exact engine_of_checkFailed _ _ _ _ h
      | exact absurd h (ComputeOne_ne_error _ _ _ _ _ _)
  · intro diff top algorithm h
    unfold Convolution.SoftmaxBackward at h
    split_ifs at h
    all_goals first
      | exact engine_of_checkFailed _ _ _ _ h
      | exact absurd h (ComputeOne_ne_error _ _ _ _ _ _)
  · intro diff top bottom algorithm h
    unfold Convolution.ActivationBackward at h
    split_ifs at h
    all_goals first
      | exact engine_of_checkFailed _ _ _ _ h
      | exact absurd h (ComputeOne_ne_error _ _ _ _ _ _)
  · intro src info h
    by_cases hs : info.stride_vertical = 0 ∨ info.stride_horizontal = 0
    · unfold Convolution.PoolingForward at h
      rw [if_pos hs] at h
      exact engine_of_divisionFailed _ _ _ h
    · rw [PoolingForward_eq src info eng hs] at h
      exact absurd h (ComputeOne_ne_error _ _ _ _ _ _)
  · intro diff top bottom info h
    rw [PoolingBackward_eq] at h
    split_ifs at h
    all_goals first
      | exact engine_of_checkFailed _ _ _ _ h
      | exact engine_of_divisionFailed _ _ _ h
      | exact absurd h (ComputeOne_ne_error _ _ _ _ _ _)
  · intro top top_diff bottom local_size alpha beta k h
    unfold Convolution.LrnBackward at h
    split_ifs at h
    all_goals first
      | exact engine_of_checkFailed _ _ _ _ h
      | exact absurd h (ComputeOne_ne_error _ _ _ _ _ _)
  · intro src_shape filter_shape info records h
    exact ConvForwardFindAlgorithm_rejected src_shape filter_shape info records eng eng' f h
  · intro top_shape bottom_shape filter_shape info records h
    exact ConvBackwardFilterFindAlgorithm_rejected top_shape bottom_shape filter_shape info
      records eng eng' f h
  · intro top_shape bottom_shape filter_shape info records h
    exact ConvBackwardDataFindAlgorithm_rejected top_shape bottom_shape filter_shape info
      records eng eng' f h

/-- Three rejected calls on an engine that already holds one entry: a forward
convolution with mismatching channels leaves the engine as it was, the
forward profiling call on the same shapes stops at the channel check with the
two probe tensors in the log, and the forward profiling call on a source shape
of three dimensions stops with one probe tensor in the log. -/
theorem rejected_calls_engine_witness :
    (∃ f eng',
      Convolution.ConvForward
          { id := 0, width := 5, height := 5, num_feature_maps := 3, num_images := 2 }
          { id := 1, width := 3, height := 3, num_inputs := 2, num_outputs := 4 }
          { id := 2, size := [4] }
          { pad_height := 0, pad_width := 0, stride_vertical := 1, stride_horizontal := 1,
            forward_algorithm := 0, backward_data_algorithm := 0,
            backward_filter_algorithm := 0 }
          { log := [EngineCall.zeros [1]], containers := [] } = (.error f, eng')
      ∧ eng' = { log := [EngineCall.zeros [1]], containers := [] })
    ∧ (∃ eng',
      Convolution.ConvForwardFindAlgorithm [5, 5, 3, 2] [3, 3, 2, 4]
          { pad_height := 0, pad_width := 0, stride_vertical := 1, stride_horizontal := 1,
            forward_algorithm := 0, backward_data_algorithm := 0,
            backward_filter_algorithm := 0 }
          [] { log := [EngineCall.zeros [1]], containers := [] }
        = (.error (Fatal.check "#input channels mismatch"), eng')
      ∧ eng'.log
          = [EngineCall.zeros [1], EngineCall.zeros [5, 5, 3, 2], EngineCall.zeros [3, 3, 2, 4]]
      ∧ eng'.containers = [])
    ∧ (∃ f eng',
      Convolution.ConvForwardFindAlgorithm [5, 5, 3] [3, 3, 3, 4]
          { pad_height := 0, pad_width := 0, stride_vertical := 1, stride_horizontal := 1,
            forward_algorithm := 0, backward_data_algorithm := 0,
            backward_filter_algorithm := 0 }
          [] { log := [EngineCall.zeros [1]], containers := [] } = (.error f, eng')
      ∧ eng'.log = [EngineCall.zeros [1], EngineCall.zeros [5, 5, 3]]
      ∧ eng'.containers = []) :=
  ⟨⟨_, _, rfl,
      (rejected_calls_engine { log := [EngineCall.zeros [1]], containers := [] } _ _).1
        { id := 0, width := 5, height := 5, num_feature_maps := 3, num_images := 2 }
        { id := 1, width := 3, height := 3, num_inputs := 2, num_outputs := 4 }
        { id := 2, size := [4] }
        { pad_height := 0, pad_width := 0, stride_vertical := 1, stride_horizontal := 1,
          forward_algorithm := 0, backward_data_algorithm := 0,
          backward_filter_algorithm := 0 } rfl⟩,
    ⟨_, rfl,
      ((rejected_calls_engine { log := [EngineCall.zeros [1]], containers := [] } _ _).2.2.2.2.2.2.2.2.1
        [5, 5, 3, 2] [3, 3, 2, 4]
        { pad_height := 0, pad_width := 0, stride_vertical := 1, stride_horizontal := 1,
          forward_algorithm := 0, backward_data_algorithm := 0,
          backward_filter_algorithm := 0 } [] rfl).2.2 rfl,
      ((rejected_calls_engine { log := [EngineCall.zeros [1]], containers := [] } _ _).2.2.2.2.2.2.2.2.1
        [5, 5, 3, 2] [3, 3, 2, 4]
        { pad_height := 0, pad_width := 0, stride_vertical := 1, stride_horizontal := 1,
          forward_algorithm := 0, backward_data_algorithm := 0,
          backward_filter_algorithm := 0 } [] rfl).1⟩,
    ⟨_, _, rfl, rfl,
      ((rejected_calls_engine { log := [EngineCall.zeros [1]], containers := [] } _ _).2.2.2.2.2.2.2.2.1
        [5, 5, 3] [3, 3, 3, 4]
        { pad_height := 0, pad_width := 0, stride_vertical := 1, stride_horizontal := 1,
          forward_algorithm := 0, backward_data_algorithm := 0,
          backward_filter_algorithm := 0 } [] rfl).1⟩⟩

/-! ## Validity of the computed shapes -/

/-- C14, as stated, fails in two ways.  An input of width and height 1 with a
filter, or a pooling window, of width and height 5, pad 0 and stride 1 is
accepted by ConvForward and by PoolingForward, and both return the shape
(-3, -3, 1, 1).  An input of width and height 2147483647 with a filter of
width and height 1, pad 1 and stride 1 overflows the 32-bit `int`, and
ConvForward returns the shape (-2147483647, -2147483647, 1, 1) although the
filter fits the input. -/
theorem output_shape32_negative :
    (∃ r eng',
      Convolution.ConvForward32
          { id := 0, width := 1, height := 1, num_feature_maps := 1, num_images := 1 }
          { id := 1, width := 5, height := 5, num_inputs := 1, num_outputs := 1 }
          { id := 2, size := [1] }
          { pad_height := 0, pad_width := 0, stride_vertical := 1, stride_horizontal := 1,
            forward_algorithm := 0, backward_data_algorithm := 0,
            backward_filter_algorithm := 0 }
          { log := [], containers := [] } = (.ok r, eng')
      ∧ r.size = [-3, -3, 1, 1]
      ∧ ¬ ∀ d ∈ r.size, 0 ≤ d)
    ∧ (∃ r eng',
      Convolution.PoolingForward32
          { id := 0, width := 1, height := 1, num_feature_maps := 1, num_images := 1 }
          { algorithm := 0, height := 5, width := 5, stride_vertical := 1,
            stride_horizontal := 1, pad_height := 0, pad_width := 0 }
          { log := [], containers := [] } = (.ok r, eng')
      ∧ r.size = [-3, -3, 1, 1]
      ∧ ¬ ∀ d ∈ r.size, 0 ≤ d)
    ∧ (∃ r eng',
      Convolution.ConvForward32
          { id := 0, width := 2147483647, height := 2147483647, num_feature_maps := 1,
            num_images := 1 }
          { id := 1, width := 1, height := 1, num_inputs := 1, num_outputs := 1 }
          { id := 2, size := [1] }
          { pad_height := 1, pad_width := 1, stride_vertical := 1, stride_horizontal := 1,
            forward_algorithm := 0, backward_data_algorithm := 0,
            backward_filter_algorithm := 0 }
          { log := [], containers := [] } = (.ok r, eng')
      ∧ r.size = [-2147483647, -2147483647, 1, 1]
      ∧ ¬ ∀ d ∈ r.size, 0 ≤ d) :=
  ⟨⟨_, _, rfl, rfl, by decide⟩, ⟨_, _, rfl, rfl, by decide⟩, ⟨_, _, rfl, rfl, by decide⟩⟩

/-- C14, amended: for inputs whose shapes have non-negative dimensions, pads
>= 0 and strides > 0, and as long as the `int` arithmetic of the shape does
not overflow, the output shape of an accepted ConvForward call has only
non-negative dimensions exactly when filterWidth < inWidth + 2*padWidth
+ 2*strideHorizontal and filterHeight < inHeight + 2*padHeight
+ 2*strideVertical, and the output shape of PoolingForward exactly when
windowHeight < inHeight + 2*padHeight + 3*strideVertical - 1 and windowWidth
< inWidth + 2*padWidth + 3*strideHorizontal - 1; in particular whenever the
filter, or the window, is not larger than the padded input. -/
theorem output_shape32_nonneg_iff :
    (∀ (src : ImageBatch) (filter : Filter) (bias : NArray) (info : ConvInfo)
        (eng : Engine) (r : NArray) (eng' : Engine),
        0 ≤ filter.GetNumOutputs → 0 ≤ src.GetNumImages
        → 0 < info.stride_horizontal → 0 < info.stride_vertical
        → convFits src.GetWidth info.pad_width filter.GetWidth info.stride_horizontal
        → convFits src.GetHeight info.pad_height filter.GetHeight info.stride_vertical
        → Convolution.ConvForward32 src filter bias info eng = (.ok r, eng')
        → (((∀ d ∈ r.size, 0 ≤ d)
            ↔ (filter.GetWidth < src.GetWidth + 2 * info.pad_width + 2 * info.stride_horizontal
              ∧ filter.GetHeight
                < src.GetHeight + 2 * info.pad_height + 2 * info.stride_vertical))
          ∧ (filter.GetWidth ≤ src.GetWidth + 2 * info.pad_width
              → filter.GetHeight ≤ src.GetHeight + 2 * info.pad_height
              → ∀ d ∈ r.size, 0 ≤ d)))
    ∧ (∀ (src : ImageBatch) (info : PoolingInfo) (eng : Engine),
        0 ≤ src.GetWidth → 0 ≤ src.GetHeight
        → 0 ≤ src.GetNumFeatureMaps → 0 ≤ src.GetNumImages
        → 0 ≤ info.pad_height → 0 ≤ info.pad_width
        → 0 < info.stride_vertical → 0 < info.stride_horizontal
        → pooledFits src.GetHeight info.pad_height info.height info.stride_vertical
        → pooledFits src.GetWidth info.pad_width info.width info.stride_horizontal
        → ∃ r eng', Convolution.PoolingForward32 src info eng = (.ok r, eng')
          ∧ ((∀ d ∈ r.size, 0 ≤ d)
            ↔ (info.height < src.GetHeight + 2 * info.pad_height + 3 * info.stride_vertical - 1
              ∧ info.width
                < src.GetWidth + 2 * info.pad_width + 3 * info.stride_horizontal - 1))
          ∧ (info.height ≤ src.GetHeight + 2 * info.pad_height
              → info.width ≤ src.GetWidth + 2 * info.pad_width
              → ∀ d ∈ r.size, 0 ≤ d)) := by
  constructor
  · intro src filter bias info eng r eng' ho hi hsh hsv fw fh h
    have hr := ConvForward32_of_accepted src filter bias info eng r eng' h
    rw [convOutputDim32_eq _ _ _ _ hsh fw, convOutputDim32_eq _ _ _ _ hsv fh] at hr
    have k1 := tdiv_add_one_nonneg_iff
      (src.GetWidth + 2 * info.pad_width - filter.GetWidth) info.stride_horizontal hsh
    have k2 := tdiv_add_one_nonneg_iff
      (src.GetHeight + 2 * info.pad_height - filter.GetHeight) info.stride_vertical hsv
    have hiff : (∀ d ∈ r.size, 0 ≤ d)
        ↔ (filter.GetWidth < src.GetWidth + 2 * info.pad_width + 2 * info.stride_horizontal
          ∧ filter.GetHeight
            < src.GetHeight + 2 * info.pad_height + 2 * info.stride_vertical) := by
      rw [hr]
      simp only [List.mem_cons, List.mem_nil_iff, or_false, forall_eq_or_imp, forall_eq]
      rw [k1, k2]
      constructor
      · rintro ⟨h1, h2, _, _⟩
        exact ⟨by omega, by omega⟩
      · rintro ⟨h1, h2⟩
        exact ⟨by omega, by omega, ho, hi⟩
    refine ⟨hiff, ?_⟩
    intro h1 h2
    exact hiff.2 ⟨by omega, by omega⟩
  · intro src info eng hw hh hc hn hph hpw hsv hsh fh fw
    have hs : ¬ (info.stride_vertical = 0 ∨ info.stride_horizontal = 0) := by omega
    have e := PoolingForward32_eq src info eng hs
    rw [pooledDim32_eq _ _ _ _ hsv fh, pooledDim32_eq _ _ _ _ hsh fw] at e
    have k1 := pooledDim_nonneg_iff src.GetHeight info.pad_height info.height
      info.stride_vertical hh hph hsv
    have k2 := pooledDim_nonneg_iff src.GetWidth info.pad_width info.width
      info.stride_horizontal hw hpw hsh
    have hiff : (∀ d ∈ [pooledDim src.GetHeight info.pad_height info.height
            info.stride_vertical,
          pooledDim src.GetWidth info.pad_width info.width info.stride_horizontal,
          src.GetNumFeatureMaps, src.GetNumImages], 0 ≤ d)
        ↔ (info.height < src.GetHeight + 2 * info.pad_height + 3 * info.stride_vertical - 1
          ∧ info.width
            < src.GetWidth + 2 * info.pad_width + 3 * info.stride_horizontal - 1) := by
      simp only [List.mem_cons, List.mem_nil_iff, or_false, forall_eq_or_imp, forall_eq]
      rw [k1, k2]
      constructor
      · rintro ⟨h1, h2, _, _⟩
        exact ⟨h1, h2⟩
      · rintro ⟨h1, h2⟩
        exact ⟨h1, h2, hc, hn⟩
    refine ⟨_, _, e, hiff, ?_⟩
    intro h1 h2
    exact hiff.2 ⟨by omega, by omega⟩

/-- Scenario A and scenario B: the filter 3 by 3 fits the input 5 by 5, the
window 2 by 2 fits the input 4 by 4, nothing overflows, and the two output
shapes have no negative dimension. -/
theorem output_shape32_nonneg_iff_witness :
    (∃ r eng',
      Convolution.ConvForward32
          { id := 0, width := 5, height := 5, num_feature_maps := 3, num_images := 2 }
          { id := 1, width := 3, height := 3, num_inputs := 3, num_outputs := 4 }
          { id := 2, size := [4] }
          { pad_height := 0, pad_width := 0, stride_vertical := 1, stride_horizontal := 1,
            forward_algorithm := 0, backward_data_algorithm := 0,
            backward_filter_algorithm := 0 }
          { log := [], containers := [] } = (.ok r, eng')
      ∧ ∀ d ∈ r.size, 0 ≤ d)
    ∧ (∃ r eng',
      Convolution.PoolingForward32
          { id := 0, width := 4, height := 4, num_feature_maps := 1, num_images := 1 }
          { algorithm := 0, height := 2, width := 2, stride_vertical := 2,
            stride_horizontal := 2, pad_height := 0, pad_width := 0 }
          { log := [], containers := [] } = (.ok r, eng')
      ∧ ∀ d ∈ r.size, 0 ≤ d) :=
  ⟨⟨_, _, rfl, (output_shape32_nonneg_iff.1
      { id := 0, width := 5, height := 5, num_feature_maps := 3, num_images := 2 }
      { id := 1, width := 3, height := 3, num_inputs := 3, num_outputs := 4 }
      { id := 2, size := [4] }
      { pad_height := 0, pad_width := 0, stride_vertical := 1, stride_horizontal := 1,
        forward_algorithm := 0, backward_data_algorithm := 0,
        backward_filter_algorithm := 0 }
      { log := [], containers := [] } _ _
      (by decide) (by decide) (by decide) (by decide) (by decide) (by decide)
      rfl).2 (by decide) (by decide)⟩,
    (output_shape32_nonneg_iff.2
      { id := 0, width := 4, height := 4, num_feature_maps := 1, num_images := 1 }
      { algorithm := 0, height := 2, width := 2, stride_vertical := 2,
        stride_horizontal := 2, pad_height := 0, pad_width := 0 }
      { log := [], containers := [] }
      (by decide) (by decide) (by decide) (by decide) (by decide) (by decide)
      (by decide) (by decide) (by decide) (by decide)).imp fun _ hr =>
        hr.imp fun _ h => ⟨h.1, h.2.2 (by decide) (by decide)⟩⟩

/-! ## The order of the pooled dimensions -/

/-- C15 at the input of width 4 and height 6 with window 2 by 2, stride 2 and pad
0: the pooled height is 3 and the pooled width is 2, and PoolingForward
returns the shape (3, 2, 1, 1), whose first dimension is the pooled height and
whose second dimension is the pooled width.  Read as an image batch the result
has width 3 and height 2. -/
theorem poolingForward_height_first :
    pooledDim 6 0 2 2 = 3
    ∧ pooledDim 4 0 2 2 = 2
    ∧ ∃ r eng' out,
        Convolution.PoolingForward
            { id := 0, width := 4, height := 6, num_feature_maps := 1, num_images := 1 }
            { algorithm := 0, height := 2, width := 2, stride_vertical := 2,
              stride_horizontal := 2, pad_height := 0, pad_width := 0 }
            { log := [], containers := [] } = (.ok r, eng')
        ∧ r.size = [3, 2, 1, 1]
        ∧ ImageBatch.ofNArray r = some out
        ∧ out.GetWidth = 3
        ∧ out.GetHeight = 2 :=
  ⟨by decide, by decide, _, _, _, rfl, rfl, rfl, rfl, rfl⟩

/-- C18 at the same input: top is the image batch PoolingForward returns for the
bottom of width 4 and height 6 (window 2 by 2, stride 2, pad 0), and diff has
the shape of top.  PoolingBackward recomputes the pooled height 3, reads the
height 2 from top and stops with the check "height mismatch". -/
theorem pooling_round_trip_rejected :
    ∃ r eng' top,
      Convolution.PoolingForward
          { id := 0, width := 4, height := 6, num_feature_maps := 1, num_images := 1 }
          { algorithm := 0, height := 2, width := 2, stride_vertical := 2,
            stride_horizontal := 2, pad_height := 0, pad_width := 0 }
          { log := [], containers := [] } = (.ok r, eng')
      ∧ ImageBatch.ofNArray r = some top
      ∧ top.Size = [3, 2, 1, 1]
      ∧ Convolution.PoolingBackward
          { id := 7, width := top.width, height := top.height,
            num_feature_maps := top.num_feature_maps, num_images := top.num_images }
          top
          { id := 0, width := 4, height := 6, num_feature_maps := 1, num_images := 1 }
          { algorithm := 0, height := 2, width := 2, stride_vertical := 2,
            stride_horizontal := 2, pad_height := 0, pad_width := 0 }
          eng' = (.error (Fatal.check "height mismatch"), eng') :=
  ⟨_, _, _, rfl, rfl, rfl, rfl⟩

/-! ## The descriptors handed to the engine -/

/-- C17: the descriptor an accepted convolution call submits carries pad_height,
pad_width, stride_vertical and stride_horizontal of the ConvInfo unchanged and
the selector of its own operation: forward_algorithm in ConvForward,
backward_data_algorithm in ConvBackwardData, backward_filter_algorithm in
ConvBackwardFilter.  The descriptor of an accepted find-algorithm call carries
the same four values and the reference to its results container, and no
selector. -/
theorem conv_descriptors (info : ConvInfo) (eng : Engine) :
    (∀ (src : ImageBatch) (filter : Filter) (bias : NArray) (r : NArray) (eng' : Engine),
        Convolution.ConvForward src filter bias info eng = (.ok r, eng')
        → ∃ inputs shape,
            eng'.log = eng.log ++ [EngineCall.submitNode inputs shape
              (PhysicalOp.ConvForwardOp {
                pad_height := info.pad_height
                pad_width := info.pad_width
                stride_vertical := info.stride_vertical
                stride_horizontal := info.stride_horizontal
                algo := info.forward_algorithm })])
    ∧ (∀ (diff bottom : ImageBatch) (filter : Filter) (r : NArray) (eng' : Engine),
        Convolution.ConvBackwardData diff bottom filter info eng = (.ok r, eng')
        → ∃ inputs shape,
            eng'.log = eng.log ++ [EngineCall.submitNode inputs shape
              (PhysicalOp.ConvBackwardDataOp {
                pad_height := info.pad_height
                pad_width := info.pad_width
                stride_vertical := info.stride_vertical
                stride_horizontal := info.stride_horizontal
                algo := info.backward_data_algorithm })])
    ∧ (∀ (diff bottom : ImageBatch) (filter : Filter) (r : NArray) (eng' : Engine),
        Convolution.ConvBackwardFilter diff bottom filter info eng = (.ok r, eng')
        → ∃ inputs shape,
            eng'.log = eng.log ++ [EngineCall.submitNode inputs shape
              (PhysicalOp.ConvBackwardFilterOp {
                pad_height := info.pad_height
                pad_width := info.pad_width
                stride_vertical := info.stride_vertical
                stride_horizontal := info.stride_horizontal
                algo := info.backward_filter_algorithm })])
    ∧ (∀ (src : ImageBatch) (filter : Filter) (records r : List AlgoProfResult)
        (eng' : Engine),
        Convolution.ConvForwardFindAlgorithm src.Size filter.Size info records eng
          = (.ok r, eng')
        → ∃ inputs shape handle,
            eng'.log = eng.log ++ [EngineCall.zeros src.Size, EngineCall.zeros filter.Size,
              EngineCall.submitNode inputs shape
                (PhysicalOp.ConvForwardFindAlgorithmOp {
                  results := eng.containers.length
                  pad_height := info.pad_height
                  pad_width := info.pad_width
                  stride_vertical := info.stride_vertical
                  stride_horizontal := info.stride_horizontal }),
              EngineCall.wait handle])
    ∧ (∀ (top bottom : ImageBatch) (filter_shape : Scale) (records r : List AlgoProfResult)
        (eng' : Engine),
        Convolution.ConvBackwardFilterFindAlgorithm top.Size bottom.Size filter_shape info
          records eng = (.ok r, eng')
        → ∃ inputs shape handle,
            eng'.log = eng.log ++ [EngineCall.zeros top.Size, EngineCall.zeros bottom.Size,
              EngineCall.submitNode inputs shape
                (PhysicalOp.ConvBackwardFilterFindAlgorithmOp {
                  results := eng.containers.length
                  pad_height := info.pad_height
                  pad_width := info.pad_width
                  stride_vertical := info.stride_vertical
                  stride_horizontal := info.stride_horizontal }),
              EngineCall.wait handle])
    ∧ (∀ (top : ImageBatch) (bottom_shape : Scale) (filter : Filter)
        (records r : List AlgoProfResult) (eng' : Engine),
        Convolution.ConvBackwardDataFindAlgorithm top.Size bottom_shape filter.Size info
          records eng = (.ok r, eng')
        → ∃ inputs shape handle,
            eng'.log = eng.log ++ [EngineCall.zeros top.Size, EngineCall.zeros filter.Size,
              EngineCall.submitNode inputs shape
                (PhysicalOp.ConvBackwardDataFindAlgorithmOp {
                  results := eng.containers.length
                  pad_height := info.pad_height
                  pad_width := info.pad_width
                  stride_vertical := info.stride_vertical
                  stride_horizontal := info.stride_horizontal }),
              EngineCall.wait handle]) := by
  refine ⟨?_, ?_, ?_, ?_, ?_, ?_⟩
  · intro src filter bias r eng' h
    unfold Convolution.ConvForward at h
    split_ifs at h
    · exact absurd h (by simp [checkFailed])
    · exact absurd h (by simp [checkFailed])
    · exact absurd h (by simp [checkFailed])
    · exact absurd h (by simp [divisionFailed])
    · simp only [NArray.ComputeOne, Prod.mk.injEq] at h
      exact ⟨_, _, by rw [← h.2]⟩
  · intro diff bottom filter r eng' h
    unfold Convolution.ConvBackwardData at h
    split_ifs at h
    · exact absurd h (by simp [checkFailed])
    · simp only [NArray.ComputeOne, Prod.mk.injEq] at h
      exact ⟨_, _, by rw [← h.2]⟩
  · intro diff bottom filter r eng' h
    unfold Convolution.ConvBackwardFilter at h
    split_ifs at h
    · exact absurd h (by simp [checkFailed])
    · simp only [NArray.ComputeOne, Prod.mk.injEq] at h
      exact ⟨_, _, by rw [← h.2]⟩
  · intro src filter records r eng' h
    rw [ConvForwardFindAlgorithm_eq] at h
    split_ifs at h
    · exact absurd h (by simp [checkFailed])
    · exact absurd h (by simp [divisionFailed])
    · simp only [Prod.mk.injEq] at h
      exact ⟨_, _, _, by rw [← h.2]⟩
  · intro top bottom filter_shape records r eng' h
    rw [ConvBackwardFilterFindAlgorithm_eq] at h
    split_ifs at h
    · exact absurd h (by simp [checkFailed])
    · simp only [Prod.mk.injEq] at h
      exact ⟨_, _, _, by rw [← h.2]⟩
  · intro top bottom_shape filter records r eng' h
    rw [ConvBackwardDataFindAlgorithm_eq] at h
    split_ifs at h
    · exact absurd h (by simp [checkFailed])
    · simp only [Prod.mk.injEq] at h
      exact ⟨_, _, _, by rw [← h.2]⟩

/-- The descriptors of two accepted calls on an empty engine with pad (1, 2),
stride (3, 4) and the selectors 5, 6, 7: ConvForward submits the selector 5,
and ConvForwardFindAlgorithm submits the reference to container 0. -/
theorem conv_descriptors_witness :
    (∃ r eng' inputs shape,
      Convolution.ConvForward
          { id := 0, width := 5, height := 5, num_feature_maps := 3, num_images := 2 }
          { id := 1, width := 3, height := 3, num_inputs := 3, num_outputs := 4 }
          { id := 2, size := [4] }
          { pad_height := 1, pad_width := 2, stride_vertical := 3, stride_horizontal := 4,
            forward_algorithm := 5, backward_data_algorithm := 6,
            backward_filter_algorithm := 7 }
          { log := [], containers := [] } = (.ok r, eng')
      ∧ eng'.log = [EngineCall.submitNode inputs shape
          (PhysicalOp.ConvForwardOp
            { pad_height := 1, pad_width := 2, stride_vertical := 3,
              stride_horizontal := 4, algo := 5 })])
    ∧ (∃ r eng' inputs shape handle,
      Convolution.ConvForwardFindAlgorithm [5, 5, 3, 2] [3, 3, 3, 4]
          { pad_height := 1, pad_width := 2, stride_vertical := 3, stride_horizontal := 4,
            forward_algorithm := 5, backward_data_algorithm := 6,
            backward_filter_algorithm := 7 }
          [] { log := [], containers := [] } = (.ok r, eng')
      ∧ eng'.log = [EngineCall.zeros [5, 5, 3, 2], EngineCall.zeros [3, 3, 3, 4],
          EngineCall.submitNode inputs shape
            (PhysicalOp.ConvForwardFindAlgorithmOp
              { results := 0, pad_height := 1, pad_width := 2, stride_vertical := 3,
                stride_horizontal := 4 }),
          EngineCall.wait handle]) := by
  refine ⟨?_, ?_⟩
  · obtain ⟨inputs, shape, h⟩ := (conv_descriptors
      { pad_height := 1, pad_width := 2, stride_vertical := 3, stride_horizontal := 4,
        forward_algorithm := 5, backward_data_algorithm := 6,
        backward_filter_algorithm := 7 }
      { log := [], containers := [] }).1
      { id := 0, width := 5, height := 5, num_feature_maps := 3, num_images := 2 }
      { id := 1, width := 3, height := 3, num_inputs := 3, num_outputs := 4 }
      { id := 2, size := [4] } _ _ rfl
    exact ⟨_, _, inputs, shape, rfl, h⟩
  · obtain ⟨inputs, shape, handle, h⟩ := (conv_descriptors
      { pad_height := 1, pad_width := 2, stride_vertical := 3, stride_horizontal := 4,
        forward_algorithm := 5, backward_data_algorithm := 6,
        backward_filter_algorithm := 7 }
      { log := [], containers := [] }).2.2.2.1
      { id := 0, width := 5, height := 5, num_feature_maps := 3, num_images := 2 }
      { id := 1, width := 3, height := 3, num_inputs := 3, num_outputs := 4 }
      [] _ _ rfl
    exact ⟨_, _, inputs, shape, handle, rfl, h⟩

/-! ## Pooling without padding, and monotonicity -/

/-- C19: for pad 0 and 1 <= stride <= window <= inDim, in the height and in the
width, the overlap correction of PoolingForward is not triggered, each pooled
dimension p equals ceil((inDim - window) / stride) + 1 and is at least 1, every
window starts inside the input, (p - 1) * stride < inDim, and the windows reach
the end of the input, (p - 1) * stride + window >= inDim. -/
theorem poolingForward_pad_zero (src : ImageBatch) (info : PoolingInfo) (eng : Engine)
    (hph : info.pad_height = 0) (hpw : info.pad_width = 0)
    (hsv : 1 ≤ info.stride_vertical) (hvw : info.stride_vertical ≤ info.height)
    (hwh : info.height ≤ src.GetHeight)
    (hsh : 1 ≤ info.stride_horizontal) (hhw : info.stride_horizontal ≤ info.width)
    (hww : info.width ≤ src.GetWidth) :
    ¬ overlaps (pooledRaw src.GetHeight info.pad_height info.height info.stride_vertical)
        src.GetHeight info.pad_height info.stride_vertical
    ∧ ¬ overlaps (pooledRaw src.GetWidth info.pad_width info.width info.stride_horizontal)
        src.GetWidth info.pad_width info.stride_horizontal
    ∧ ∃ pooled_height pooled_width r eng',
        Convolution.PoolingForward src info eng = (.ok r, eng')
        ∧ r.size = [pooled_height, pooled_width, src.GetNumFeatureMaps, src.GetNumImages]
        ∧ pooled_height = pooledRawSpec src.GetHeight 0 info.height info.stride_vertical
        ∧ 1 ≤ pooled_height
        ∧ (pooled_height - 1) * info.stride_vertical < src.GetHeight
        ∧ src.GetHeight ≤ (pooled_height - 1) * info.stride_vertical + info.height
        ∧ pooled_width = pooledRawSpec src.GetWidth 0 info.width info.stride_horizontal
        ∧ 1 ≤ pooled_width
        ∧ (pooled_width - 1) * info.stride_horizontal < src.GetWidth
        ∧ src.GetWidth ≤ (pooled_width - 1) * info.stride_horizontal + info.width := by
  have hs : ¬ (info.stride_vertical = 0 ∨ info.stride_horizontal = 0) := by omega
  obtain ⟨a1, a2, a3, a4, a5⟩ :=
    pooledDim_pad_zero src.GetHeight info.height info.stride_vertical hsv hvw hwh
  obtain ⟨b1, b2, b3, b4, b5⟩ :=
    pooledDim_pad_zero src.GetWidth info.width info.stride_horizontal hsh hhw hww
  have e := PoolingForward_eq src info eng hs
  rw [hph, hpw] at e ⊢
  exact ⟨a1, b1, _, _, _, _, e, rfl, a2, a3, a4, a5, b2, b3, b4, b5⟩

/-- Input 7 by 5 with window 3 by 2 and stride 2 by 2, pad 0: the pooled height
is ceil((5 - 2) / 2) + 1 = 3 and the pooled width is ceil((7 - 3) / 2) + 1 = 3. -/
theorem poolingForward_pad_zero_witness :
    ¬ overlaps (pooledRaw 5 0 2 2) 5 0 2
    ∧ ¬ overlaps (pooledRaw 7 0 3 2) 7 0 2
    ∧ ∃ pooled_height pooled_width r eng',
        Convolution.PoolingForward
            { id := 0, width := 7, height := 5, num_feature_maps := 1, num_images := 1 }
            { algorithm := 0, height := 2, width := 3, stride_vertical := 2,
              stride_horizontal := 2, pad_height := 0, pad_width := 0 }
            { log := [], containers := [] } = (.ok r, eng')
        ∧ r.size = [pooled_height, pooled_width, 1, 1]
        ∧ pooled_height = pooledRawSpec 5 0 2 2
        ∧ 1 ≤ pooled_height
        ∧ (pooled_height - 1) * 2 < 5
        ∧ 5 ≤ (pooled_height - 1) * 2 + 2
        ∧ pooled_width = pooledRawSpec 7 0 3 2
        ∧ 1 ≤ pooled_width
        ∧ (pooled_width - 1) * 2 < 7
        ∧ 7 ≤ (pooled_width - 1) * 2 + 3 :=
  poolingForward_pad_zero
    { id := 0, width := 7, height := 5, num_feature_maps := 1, num_images := 1 }
    { algorithm := 0, height := 2, width := 3, stride_vertical := 2,
      stride_horizontal := 2, pad_height := 0, pad_width := 0 }
    { log := [], containers := [] }
    rfl rfl (by decide) (by decide) (by decide) (by decide) (by decide) (by decide)

/-- C20, as stated, fails: with pad 100000000, window 2 and stride 2 the input of
height and width 4 gets the pooled dimensions 100000001, and the larger input
of height and width 2000000000, for which the numerator 2199999999 does not
fit the 32-bit `int`, gets -1047483648. -/
theorem poolingForward32_not_monotone :
    ∃ ra ea rb eb,
      Convolution.PoolingForward32
          { id := 0, width := 4, height := 4, num_feature_maps := 1, num_images := 1 }
          { algorithm := 0, height := 2, width := 2, stride_vertical := 2,
            stride_horizontal := 2, pad_height := 100000000, pad_width := 100000000 }
          { log := [], containers := [] } = (.ok ra, ea)
      ∧ ra.size = [100000001, 100000001, 1, 1]
      ∧ Convolution.PoolingForward32
          { id := 0, width := 2000000000, height := 2000000000, num_feature_maps := 1,
            num_images := 1 }
          { algorithm := 0, height := 2, width := 2, stride_vertical := 2,
            stride_horizontal := 2, pad_height := 100000000, pad_width := 100000000 }
          { log := [], containers := [] } = (.ok rb, eb)
      ∧ rb.size = [-1047483648, -1047483648, 1, 1]
      ∧ (4 : Int) ≤ 2000000000
      ∧ ¬ pooledDim32 4 100000000 2 2 ≤ pooledDim32 2000000000 100000000 2 2 :=
  ⟨_, _, _, _, rfl, rfl, rfl, rfl, by decide, by decide⟩

/-- C20, amended: as long as the `int` arithmetic of the pooled dimensions does
not overflow for either input, the overlap-corrected pooled dimensions
computed by PoolingForward are monotone in the input dimensions: for one
PoolingInfo with strides >= 1, an input that is at least as high and at least
as wide as another one gets a pooled height and a pooled width that are at
least as large. -/
theorem poolingForward32_monotone (src_a src_b : ImageBatch) (info : PoolingInfo)
    (eng : Engine)
    (hsv : 1 ≤ info.stride_vertical) (hsh : 1 ≤ info.stride_horizontal)
    (hh : src_a.GetHeight ≤ src_b.GetHeight) (hw : src_a.GetWidth ≤ src_b.GetWidth)
    (fah : pooledFits src_a.GetHeight info.pad_height info.height info.stride_vertical)
    (faw : pooledFits src_a.GetWidth info.pad_width info.width info.stride_horizontal)
    (fbh : pooledFits src_b.GetHeight info.pad_height info.height info.stride_vertical)
    (fbw : pooledFits src_b.GetWidth info.pad_width info.width info.stride_horizontal) :
    pooledDim32 src_a.GetHeight info.pad_height info.height info.stride_vertical
      ≤ pooledDim32 src_b.GetHeight info.pad_height info.height info.stride_vertical
    ∧ pooledDim32 src_a.GetWidth info.pad_width info.width info.stride_horizontal
      ≤ pooledDim32 src_b.GetWidth info.pad_width info.width info.stride_horizontal
    ∧ ∃ ra ea rb eb height_a width_a height_b width_b,
        Convolution.PoolingForward32 src_a info eng = (.ok ra, ea)
        ∧ ra.size = [height_a, width_a, src_a.GetNumFeatureMaps, src_a.GetNumImages]
        ∧ Convolution.PoolingForward32 src_b info eng = (.ok rb, eb)
        ∧ rb.size = [height_b, width_b, src_b.GetNumFeatureMaps, src_b.GetNumImages]
        ∧ height_a ≤ height_b
        ∧ width_a ≤ width_b := by
  have hs : ¬ (info.stride_vertical = 0 ∨ info.stride_horizontal = 0) := by omega
  have m1 : pooledDim32 src_a.GetHeight info.pad_height info.height info.stride_vertical
      ≤ pooledDim32 src_b.GetHeight info.pad_height info.height info.stride_vertical := by
    rw [pooledDim32_eq _ _ _ _ (by omega) fah, pooledDim32_eq _ _ _ _ (by omega) fbh]
    exact pooledDim_mono _ _ _ _ _ (by omega) hh
  have m2 : pooledDim32 src_a.GetWidth info.pad_width info.width info.stride_horizontal
      ≤ pooledDim32 src_b.GetWidth info.pad_width info.width info.stride_horizontal := by
    rw [pooledDim32_eq _ _ _ _ (by omega) faw, pooledDim32_eq _ _ _ _ (by omega) fbw]
    exact pooledDim_mono _ _ _ _ _ (by omega) hw
  exact ⟨m1, m2, _, _, _, _, _, _, _, _, PoolingForward32_eq src_a info eng hs, rfl,
    PoolingForward32_eq src_b info eng hs, rfl, m1, m2⟩

/-- Inputs 4 by 4 and 6 by 5 with window 2 by 2, stride 2 and pad 1: nothing
overflows, and the pooled dimensions grow from (3, 3) to (3, 4) in height and
width. -/
theorem poolingForward32_monotone_witness :
    pooledDim32 4 1 2 2 ≤ pooledDim32 5 1 2 2
    ∧ pooledDim32 4 1 2 2 ≤ pooledDim32 6 1 2 2
    ∧ pooledDim32 4 1 2 2 = 3 ∧ pooledDim32 5 1 2 2 = 3 ∧ pooledDim32 6 1 2 2 = 4 :=
  ⟨(poolingForward32_monotone
      { id := 0, width := 4, height := 4, num_feature_maps := 1, num_images := 1 }
      { id := 0, width := 6, height := 5, num_feature_maps := 1, num_images := 1 }
      { algorithm := 0, height := 2, width := 2, stride_vertical := 2,
        stride_horizontal := 2, pad_height := 1, pad_width := 1 }
      { log := [], containers := [] }
      (by decide) (by decide) (by decide) (by decide)
      (by decide) (by decide) (by decide) (by decide)).1,
    (poolingForward32_monotone
      { id := 0, width := 4, height := 4, num_feature_maps := 1, num_images := 1 }
      { id := 0, width := 6, height := 5, num_feature_maps := 1, num_images := 1 }
      { algorithm := 0, height := 2, width := 2, stride_vertical := 2,
        stride_horizontal := 2, pad_height := 1, pad_width := 1 }
      { log := [], containers := [] }
      (by decide) (by decide) (by decide) (by decide)
      (by decide) (by decide) (by decide) (by decide)).2.1,
    by decide, by decide, by decide⟩

/-! ## The results container of a profiling call -/

/-- C16: every accepted call of a find-algorithm operator creates a results
container of its own, which is new and empty when the profiling node is
submitted, submits the node with a reference to it, waits for the returned
handle and then returns the contents of the container, which are the records
of the engine in the engine's order.  Two calls in a row with the same
arguments refer to two different containers: the second call returns only its
own records, and the container of the first call still holds the records of
the first call. -/
theorem findAlgorithm_own_container (src top bottom : ImageBatch) (filter : Filter)
    (bottom_shape filter_shape : Scale) (info : ConvInfo)
    (records1 records2 : List AlgoProfResult) (eng : Engine)
    (hsrc : src.GetNumFeatureMaps = filter.GetNumInputs)
    (hsh : info.stride_horizontal ≠ 0) (hsv : info.stride_vertical ≠ 0)
    (himg : top.GetNumImages = bottom.GetNumImages)
    (hout : top.GetNumFeatureMaps = filter.GetNumOutputs) :
    (∀ e : Engine,
        (make_shared e).2.containers.get? (make_shared e).1 = some []
        ∧ e.containers.get? (make_shared e).1 = none
        ∧ ∀ i, i < e.containers.length →
            (make_shared e).2.containers.get? i = e.containers.get? i)
    ∧ (∃ e1 e2 inputs1 shape1 handle1 inputs2 shape2 handle2,
        Convolution.ConvForwardFindAlgorithm src.Size filter.Size info records1 eng
          = (.ok records1, e1)
        ∧ Convolution.ConvForwardFindAlgorithm src.Size filter.Size info records2 e1
          = (.ok records2, e2)
        ∧ e1.containers = eng.containers ++ [records1]
        ∧ e2.containers = eng.containers ++ [records1, records2]
        ∧ e1.log = eng.log ++ [EngineCall.zeros src.Size, EngineCall.zeros filter.Size,
            EngineCall.submitNode inputs1 shape1
              (PhysicalOp.ConvForwardFindAlgorithmOp {
                results := eng.containers.length
                pad_height := info.pad_height
                pad_width := info.pad_width
                stride_vertical := info.stride_vertical
                stride_horizontal := info.stride_horizontal }),
            EngineCall.wait handle1]
        ∧ e2.log = e1.log ++ [EngineCall.zeros src.Size, EngineCall.zeros filter.Size,
            EngineCall.submitNode inputs2 shape2
              (PhysicalOp.ConvForwardFindAlgorithmOp {
                results := eng.containers.length + 1
                pad_height := info.pad_height
                pad_width := info.pad_width
                stride_vertical := info.stride_vertical
                stride_horizontal := info.stride_horizontal }),
            EngineCall.wait handle2])
    ∧ (∃ e1 e2 inputs1 shape1 handle1 inputs2 shape2 handle2,
        Convolution.ConvBackwardFilterFindAlgorithm top.Size bottom.Size filter_shape info
          records1 eng = (.ok records1, e1)
        ∧ Convolution.ConvBackwardFilterFindAlgorithm top.Size bottom.Size filter_shape info
          records2 e1 = (.ok records2, e2)
        ∧ e1.containers = eng.containers ++ [records1]
        ∧ e2.containers = eng.containers ++ [records1, records2]
        ∧ e1.log = eng.log ++ [EngineCall.zeros top.Size, EngineCall.zeros bottom.Size,
            EngineCall.submitNode inputs1 shape1
              (PhysicalOp.ConvBackwardFilterFindAlgorithmOp {
                results := eng.containers.length
                pad_height := info.pad_height
                pad_width := info.pad_width
                stride_vertical := info.stride_vertical
                stride_horizontal := info.stride_horizontal }),
            EngineCall.wait handle1]
        ∧ e2.log = e1.log ++ [EngineCall.zeros top.Size, EngineCall.zeros bottom.Size,
            EngineCall.submitNode inputs2 shape2
              (PhysicalOp.ConvBackwardFilterFindAlgorithmOp {
                results := eng.containers.length + 1
                pad_height := info.pad_height
                pad_width := info.pad_width
                stride_vertical := info.stride_vertical
                stride_horizontal := info.stride_horizontal }),
            EngineCall.wait handle2])
    ∧ (∃ e1 e2 inputs1 shape1 handle1 inputs2 shape2 handle2,
        Convolution.ConvBackwardDataFindAlgorithm top.Size bottom_shape filter.Size info
          records1 eng = (.ok records1, e1)
        ∧ Convolution.ConvBackwardDataFindAlgorithm top.Size bottom_shape filter.Size info
          records2 e1 = (.ok records2, e2)
        ∧ e1.containers = eng.containers ++ [records1]
        ∧ e2.containers = eng.containers ++ [records1, records2]
        ∧ e1.log = eng.log ++ [EngineCall.zeros top.Size, EngineCall.zeros filter.Size,
            EngineCall.submitNode inputs1 shape1
              (PhysicalOp.ConvBackwardDataFindAlgorithmOp {
                results := eng.containers.length
                pad_height := info.pad_height
                pad_width := info.pad_width
                stride_vertical := info.stride_vertical
                stride_horizontal := info.stride_horizontal }),
            EngineCall.wait handle1]
        ∧ e2.log = e1.log ++ [EngineCall.zeros top.Size, EngineCall.zeros filter.Size,
            EngineCall.submitNode inputs2 shape2
              (PhysicalOp.ConvBackwardDataFindAlgorithmOp {
                results := eng.containers.length + 1
                pad_height := info.pad_height
                pad_width := info.pad_width
                stride_vertical := info.stride_vertical
                stride_horizontal := info.stride_horizontal }),
            EngineCall.wait handle2]) := by
  have hs : ¬ (info.stride_horizontal = 0 ∨ info.stride_vertical = 0) := by
    rintro (h | h)
    · exact hsh h
    · exact hsv h
  have hlen : ∀ (e1 : Engine) (recs : List AlgoProfResult),
      e1.containers = eng.containers ++ [recs] →
        e1.containers.length = eng.containers.length + 1 := by
    intro e1 recs h
    rw [h]; simp
  have happ : ∀ (e1 e2 : Engine), e1.containers = eng.containers ++ [records1] →
      e2.containers = e1.containers ++ [records2] →
        e2.containers = eng.containers ++ [records1, records2] := by
    intro e1 e2 h1 h2
    rw [h2, h1]; simp
  refine ⟨?_, ?_, ?_, ?_⟩
  · intro e
    have h := make_shared_fresh e
    exact ⟨h.1, h.2.1, h.2.2.2⟩
  · obtain ⟨e1, i1, s1, w1, c1, k1, l1⟩ :=
      ConvForwardFindAlgorithm_accepted src filter info records1 eng hsrc hs
    obtain ⟨e2, i2, s2, w2, c2, k2, l2⟩ :=
      ConvForwardFindAlgorithm_accepted src filter info records2 e1 hsrc hs
    rw [hlen e1 records1 k1] at l2
    exact ⟨e1, e2, i1, s1, w1, i2, s2, w2, c1, c2, k1, happ e1 e2 k1 k2, l1, l2⟩
  · obtain ⟨e1, i1, s1, w1, c1, k1, l1⟩ :=
      ConvBackwardFilterFindAlgorithm_accepted top bottom filter_shape info records1 eng himg
    obtain ⟨e2, i2, s2, w2, c2, k2, l2⟩ :=
      ConvBackwardFilterFindAlgorithm_accepted top bottom filter_shape info records2 e1 himg
    rw [hlen e1 records1 k1] at l2
    exact ⟨e1, e2, i1, s1, w1, i2, s2, w2, c1, c2, k1, happ e1 e2 k1 k2, l1, l2⟩
  · obtain ⟨e1, i1, s1, w1, c1, k1, l1⟩ :=
      ConvBackwardDataFindAlgorithm_accepted top bottom_shape filter info records1 eng hout
    obtain ⟨e2, i2, s2, w2, c2, k2, l2⟩ :=
      ConvBackwardDataFindAlgorithm_accepted top bottom_shape filter info records2 e1 hout
    rw [hlen e1 records1 k1] at l2
    exact ⟨e1, e2, i1, s1, w1, i2, s2, w2, c1, c2, k1, happ e1 e2 k1 k2, l1, l2⟩

/-- Two forward profiling calls in a row on the shapes of scenario A, the engine
measuring one record (algorithm 1, cost 10) for the first call and two records
for the second: each call returns its own records, and the two containers hold
them separately. -/
theorem findAlgorithm_own_container_witness :
    ∃ e1 e2,
      Convolution.ConvForwardFindAlgorithm [5, 5, 3, 2] [3, 3, 3, 4]
          { pad_height := 0, pad_width := 0, stride_vertical := 1, stride_horizontal := 1,
            forward_algorithm := 0, backward_data_algorithm := 0,
            backward_filter_algorithm := 0 }
          [{ algo := 1, cost := 10 }] { log := [], containers := [] }
        = (.ok [{ algo := 1, cost := 10 }], e1)
      ∧ Convolution.ConvForwardFindAlgorithm [5, 5, 3, 2] [3, 3, 3, 4]
          { pad_height := 0, pad_width := 0, stride_vertical := 1, stride_horizontal := 1,
            forward_algorithm := 0, backward_data_algorithm := 0,
            backward_filter_algorithm := 0 }
          [{ algo := 2, cost := 7 }, { algo := 0, cost := 9 }] e1
        = (.ok [{ algo := 2, cost := 7 }, { algo := 0, cost := 9 }], e2)
      ∧ e1.containers = [[{ algo := 1, cost := 10 }]]
      ∧ e2.containers
          = [[{ algo := 1, cost := 10 }], [{ algo := 2, cost := 7 }, { algo := 0, cost := 9 }]] := by
  obtain ⟨e1, e2, _, _, _, _, _, _, c1, c2, k1, k2, _, _⟩ :=
    (findAlgorithm_own_container
      { id := 0, width := 5, height := 5, num_feature_maps := 3, num_images := 2 }
      { id := 0, width := 5, height := 5, num_feature_maps := 4, num_images := 2 }
      { id := 0, width := 7, height := 7, num_feature_maps := 3, num_images := 2 }
      { id := 0, width := 3, height := 3, num_inputs := 3, num_outputs := 4 }
      [7, 7, 3, 2] [3, 3, 3, 4]
      { pad_height := 0, pad_width := 0, stride_vertical := 1, stride_horizontal := 1,
        forward_algorithm := 0, backward_data_algorithm := 0,
        backward_filter_algorithm := 0 }
      [{ algo := 1, cost := 10 }] [{ algo := 2, cost := 7 }, { algo := 0, cost := 9 }]
      { log := [], containers := [] }
      (by decide) (by decide) (by decide) (by decide) (by decide)).2.1
  exact ⟨e1, e2, c1, c2, k1, k2⟩

end minerva
